import Mathlib

/-!
Shallow embedding of the G6 drag-node behavior (DragNode) and the polyline
edge renderer's routing choice, translated from the TypeScript source.

Conventions of the embedding:
* identifiers are strings, coordinates are rationals;
* the surrounding graph runtime (an external collaborator with a fixed
  contract) is an explicit `Graph` state: read queries are function fields,
  mutating operations (position update, data update, hide/show with
  sub-shape-id sets) are pure state transformers;
* side channels (event emission, transient drawing, warnings, z-order
  raising) are collected in an `Effects` record;
* handlers that can throw a runtime TypeError (reading a field of an
  undefined lookup) return `Except String`.
-/

abbrev ID := String

/-- The id of the synthetic delegate rectangle, from the source constant
DELEGATE_SHAPE_ID. -/
def DELEGATE_SHAPE_ID : ID := "g6-drag-node-delegate-shape"

/-- An edge model: id, source node id, target node id. -/
structure EdgeM where
  id : ID
  source : ID
  target : ID
deriving DecidableEq, Repr

/-- An item held in hiddenComboTreeItems: a combo or node model; the flag
mirrors item.data._isCombo read by clearTransientItems. -/
structure ComboItem where
  id : ID
  isCombo : Bool
deriving DecidableEq, Repr

/-- A snapshot entry of originPositions: node id, position, and the render
bounding box recorded only when delegate mode is enabled. -/
structure Pos where
  id : ID
  x : ℚ
  y : ℚ
  minX : Option ℚ
  minY : Option ℚ
  maxX : Option ℚ
  maxY : Option ℚ
deriving DecidableEq, Repr

/-- A node record in the graph data store: position and combo parent, plus
the preventPolylineEdgeOverlap flag read by isPointPreventPolylineOverlap. -/
structure NodeRec where
  x : ℚ
  y : ℚ
  parentId : Option ID
  preventPolylineOverlap : Bool
deriving DecidableEq, Repr

/-- A combo record: its own parent in the combo tree. -/
structure ComboRec where
  parentId : Option ID
deriving DecidableEq, Repr

/-- An axis-aligned render bounding box, as returned by getRenderBBox. -/
structure BBox where
  minX : ℚ
  minY : ℚ
  maxX : ℚ
  maxY : ℚ
deriving DecidableEq, Repr

/-- The graph runtime state visible to the behavior: node/combo data,
per-item visible sub-shape ids, and the read-only queries the behavior
issues (related edges, neighbors, near edges, state lookup, bboxes,
combo-tree DFS, renderer type). -/
structure Graph where
  nodes : ID → Option NodeRec
  combos : ID → Option ComboRec
  comboCount : Nat
  visible : ID → List String
  fullShapes : ID → List String
  relatedEdgesData : ID → List EdgeM
  neighborNodesData : ID → List ID
  nearEdgesAvoid : ID → List EdgeM
  findIdByState : String → List ID
  renderBBox : ID → Option BBox
  comboTreeDfs : List ID → List ID
  rendererType : String

/-- Geometry overrides possibly present in the user delegateStyle; the
source spreads delegateStyle after the computed rect geometry, so explicit
x, y, width, height entries would win. The default style has none. -/
structure DelegateStyle where
  x : Option ℚ
  y : Option ℚ
  width : Option ℚ
  height : Option ℚ
deriving DecidableEq, Repr

/-- The resolved options of the DragNode behavior. -/
structure Options where
  enableTransient : Bool
  enableDelegate : Bool
  delegateStyle : DelegateStyle
  throttle : ℚ
  hideRelatedEdges : Bool
  selectedState : String
  eventName : String
  updateComboStructure : Bool
  shouldBegin : Bool
deriving DecidableEq, Repr

/-- The options object passed to the constructor: every field optional. -/
structure PartialOptions where
  enableTransient : Option Bool := none
  enableDelegate : Option Bool := none
  delegateStyle : Option DelegateStyle := none
  throttle : Option ℚ := none
  hideRelatedEdges : Option Bool := none
  selectedState : Option String := none
  eventName : Option String := none
  updateComboStructure : Option Bool := none
  shouldBegin : Option Bool := none

/-- DEFAULT_OPTIONS from the source. -/
def DEFAULT_OPTIONS : Options :=
  { enableTransient := true
    enableDelegate := false
    delegateStyle := ⟨none, none, none, none⟩
    throttle := 16
    hideRelatedEdges := false
    selectedState := "selected"
    eventName := ""
    updateComboStructure := true
    shouldBegin := true }

/-- The two constructor fixups: delegate disables transient; delegate or
transient disables hideRelatedEdges. -/
def applyFixups (merged : Options) : Options :=
  let o1 := if merged.enableDelegate then { merged with enableTransient := false } else merged
  if o1.enableDelegate || o1.enableTransient then { o1 with hideRelatedEdges := false } else o1

/-- The DragNode constructor: Object.assign of the defaults with the given
options, then the fixups. -/
def finalOptions (po : PartialOptions) : Options :=
  applyFixups
    { enableTransient := po.enableTransient.getD DEFAULT_OPTIONS.enableTransient
      enableDelegate := po.enableDelegate.getD DEFAULT_OPTIONS.enableDelegate
      delegateStyle := po.delegateStyle.getD DEFAULT_OPTIONS.delegateStyle
      throttle := po.throttle.getD DEFAULT_OPTIONS.throttle
      hideRelatedEdges := po.hideRelatedEdges.getD DEFAULT_OPTIONS.hideRelatedEdges
      selectedState := po.selectedState.getD DEFAULT_OPTIONS.selectedState
      eventName := po.eventName.getD DEFAULT_OPTIONS.eventName
      updateComboStructure := po.updateComboStructure.getD DEFAULT_OPTIONS.updateComboStructure
      shouldBegin := po.shouldBegin.getD DEFAULT_OPTIONS.shouldBegin }

/-- Private state of a DragNode instance. -/
structure DragState where
  opts : Options
  hiddenEdges : List EdgeM
  hiddenRelatedNodes : List ID
  selectedNodeIds : List ID
  hiddenNearEdges : List EdgeM
  hiddenComboTreeItems : List ComboItem
  originX : ℚ
  originY : ℚ
  originPositions : List Pos
  pointerDown : Option (ℚ × ℚ)
  dragging : Bool
  hiddenNearEdgesCache : List EdgeM
  hiddenShapeCache : ID → Option (List String)

/-- A fresh behavior instance with the given resolved options. -/
def initState (opts : Options) : DragState :=
  { opts := opts
    hiddenEdges := []
    hiddenRelatedNodes := []
    selectedNodeIds := []
    hiddenNearEdges := []
    hiddenComboTreeItems := []
    originX := 0
    originY := 0
    originPositions := []
    pointerDown := none
    dragging := false
    hiddenNearEdgesCache := []
    hiddenShapeCache := fun _ => none }

/-- Transient drawing commands issued through graph.drawTransient. -/
inductive TCmd where
  | upsertNode (id : ID) (pos : Option (ℚ × ℚ)) (upsertAncestors : Bool)
  | upsertEdge (id : ID) (forceVisible : Bool)
  | upsertRect (id : ID) (x y w h : Option ℚ)
  | removeNode (id : ID)
  | removeEdge (id : ID)
  | removeCombo (id : ID)
  | removeRect (id : ID)
deriving DecidableEq, Repr

/-- Side-channel output of a handler: emitted events with their itemIds
payload, transient draw commands, warnings, z-order raises. -/
structure Effects where
  events : List (String × List ID)
  transients : List TCmd
  warnings : List String
  fronted : List ID
deriving DecidableEq, Repr

def emptyEffects : Effects := ⟨[], [], [], []⟩

def Effects.append (a b : Effects) : Effects :=
  ⟨a.events ++ b.events, a.transients ++ b.transients,
   a.warnings ++ b.warnings, a.fronted ++ b.fronted⟩

/-! ## Graph runtime operations (the external collaborators' contracts) -/

/-- Position read-back helper. -/
def posOf (g : Graph) (id : ID) : Option (ℚ × ℚ) :=
  (g.nodes id).map (fun r => (r.x, r.y))

/-- Parent read-back helper. -/
def parentOf (g : Graph) (id : ID) : Option (Option ID) :=
  (g.nodes id).map (fun r => r.parentId)

/-- First-match lookup in a batch of position changes. -/
def lookupPC : List (ID × ℚ × ℚ) → ID → Option (ℚ × ℚ)
  | [], _ => none
  | (i, x, y) :: rest, k => if i = k then some (x, y) else lookupPC rest k

/-- graph.updateNodePosition: batch position update; ids not present in the
graph are unaffected. -/
def updateNodePosition (g : Graph) (changes : List (ID × ℚ × ℚ)) : Graph :=
  { g with nodes := fun k =>
      match lookupPC changes k with
      | some (x, y) => (g.nodes k).map (fun r => { r with x := x, y := y })
      | none => g.nodes k }

/-- graph.updateData changing one node's parentId. -/
def updateDataParent (g : Graph) (id : ID) (pid : Option ID) : Graph :=
  { g with nodes := fun k =>
      if k = id then (g.nodes k).map (fun r => { r with parentId := pid }) else g.nodes k }

/-- graph.hideItem on a batch of ids: clears their visible sub-shape sets. -/
def hideItems (g : Graph) (ids : List ID) : Graph :=
  { g with visible := fun k => if k ∈ ids then [] else g.visible k }

/-- graph.showItem: with an explicit shapeIds list restores exactly those
sub-shapes; with none (the option absent) restores the item's full default
sub-shape set. -/
def showItem (g : Graph) (id : ID) (shapeIds : Option (List String)) : Graph :=
  { g with visible := fun k =>
      if k = id then shapeIds.getD (g.fullShapes id) else g.visible k }

/-- Cache each id's currently visible sub-shape ids (getItemVisibleShapeIds)
and then hide the whole batch, as each hiding site in the source does. -/
def cacheThenHide (g : Graph) (cache : ID → Option (List String)) (ids : List ID) :
    Graph × (ID → Option (List String)) :=
  (hideItems g ids,
   ids.foldl (fun c id => fun k => if k = id then some (g.visible id) else c k) cache)

/-! ## Query helpers of the behavior -/

/-- lodash-style uniq: keep the first occurrence of each element. -/
def uniqBy [DecidableEq α] (l : List α) : List α :=
  l.foldl (fun acc a => if a ∈ acc then acc else acc ++ [a]) []

/-- DragNode.getRelatedEdges. -/
def getRelatedEdges (g : Graph) (selectedNodeIds : List ID) (relatedCombo : List ComboItem) :
    List EdgeM :=
  let relatedNodeComboIds := g.comboTreeDfs (relatedCombo.map ComboItem.id)
  uniqBy ((selectedNodeIds ++ relatedNodeComboIds).flatMap g.relatedEdgesData)

/-- DragNode.getRelatedNodes: neighbors of the selection outside the
selection. -/
def getRelatedNodes (g : Graph) (selectedNodeIds : List ID) : List ID :=
  selectedNodeIds.flatMap
    (fun id => (g.neighborNodesData id).filter (fun n => n ∉ selectedNodeIds))

/-- DragNode.getNearEdgesForNodes, with the obstacle-avoidance predicate
already applied by the graph query. -/
def getNearEdgesForNodes (g : Graph) (nodeIds : List ID) : List EdgeM :=
  uniqBy (nodeIds.flatMap g.nearEdgesAvoid)

/-- The while loop of getComboTreeItems climbing combo ancestors; fuel bounds
the walk by the number of combos in the graph. -/
def climbAncestors (g : Graph) : Nat → Option ID → List ComboItem → List ComboItem
  | 0, _, acc => acc
  | _, none, acc => acc
  | Nat.succ fuel, some pid, acc =>
    match g.combos pid with
    | none => acc
    | some c => climbAncestors g fuel c.parentId (acc ++ [⟨pid, true⟩])

/-- DragNode.getComboTreeItems: empty when updateComboStructure is on;
otherwise the visible combo ancestors of the selection. Reading the parent
of a node id that is not in the graph throws. -/
def getComboTreeItems (opts : Options) (g : Graph) (selectedNodeIds : List ID) :
    Except String (List ComboItem) :=
  if opts.updateComboStructure then .ok []
  else
    (selectedNodeIds.foldlM
      (fun acc id =>
        match g.nodes id with
        | none => Except.error "TypeError: cannot read data of undefined"
        | some r =>
          match r.parentId with
          | none => Except.ok acc
          | some pid => Except.ok (acc ++ climbAncestors g (g.comboCount + 1) (some pid) []))
      ([] : List ComboItem)).map
      (fun ancestors => (uniqBy ancestors).filter (fun it => !(g.visible it.id).isEmpty))

/-- The warning printed when a snapshot references a missing node. The
source passes a single-quoted literal, so the placeholder is not expanded. -/
def warnMissingNode : String := "node with id = \"${id}\" does not exist"

/-- The originPositions snapshot of onPointerMove: missing ids are warned
about and skipped (filter Boolean); with delegate enabled the render bbox is
recorded alongside when available. Returns the snapshot and the warnings. -/
def snapshotOne (opts : Options) (g : Graph) (id : ID) : Option Pos :=
  match g.nodes id with
  | none => none
  | some r =>
    if opts.enableDelegate then
      match g.renderBBox id with
      | some bb => some ⟨id, r.x, r.y, some bb.minX, some bb.minY, some bb.maxX, some bb.maxY⟩
      | none => some ⟨id, r.x, r.y, none, none, none, none⟩
    else some ⟨id, r.x, r.y, none, none, none, none⟩

def snapshotPositions (opts : Options) (g : Graph) (ids : List ID) :
    List Pos × List String :=
  (ids.filterMap (snapshotOne opts g),
   (ids.filter (fun id => (g.nodes id).isNone)).map (fun _ => warnMissingNode))

/-! ## Throttling -/

/-- State of the lodash throttle wrapper created at drag start with leading
and trailing delivery: the time of the last leading invocation and whether a
trailing call is pending. -/
structure ThrottleState where
  lastInvoke : Option ℚ
  pending : Bool
deriving DecidableEq, Repr

/-- The fresh throttle wrapper installed when a drag starts. -/
def freshThrottle : ThrottleState := ⟨none, false⟩

/-! ## Moving -/

/-- DragNode.moveNodes. In transient mode it only redraws the transient
copies; otherwise it commits the delta to the real node positions through
updateNodePosition and hands the caller the positions snapshot that the
completion callback receives. -/
def moveNodes (s : DragState) (g : Graph) (deltaX deltaY : ℚ)
    (transient : Bool) (upsertAncestors : Bool) :
    Graph × Effects × Option (List Pos) :=
  if transient then
    let cmds : List TCmd :=
      s.originPositions.map
        (fun p => TCmd.upsertNode p.id (some (p.x + deltaX, p.y + deltaY)) upsertAncestors) ++
      s.hiddenEdges.map (fun e => TCmd.upsertEdge e.id false)
    (g, { emptyEffects with transients := cmds }, none)
  else
    (updateNodePosition g (s.originPositions.map (fun p => (p.id, p.x + deltaX, p.y + deltaY))),
     emptyEffects,
     some s.originPositions)

/-- Math.min over the optional bbox fields: any missing value (or an empty
list) poisons the result, mirroring NaN and Infinity. -/
def optMin2 (a b : Option ℚ) : Option ℚ :=
  match a, b with
  | some x, some y => some (min x y)
  | _, _ => none

def optMax2 (a b : Option ℚ) : Option ℚ :=
  match a, b with
  | some x, some y => some (max x y)
  | _, _ => none

def optMinList : List (Option ℚ) → Option ℚ
  | [] => none
  | [a] => a
  | a :: b :: rest => optMin2 a (optMinList (b :: rest))

/-- Math.max over the optional bbox fields. -/
def optMaxList : List (Option ℚ) → Option ℚ
  | [] => none
  | [a] => a
  | a :: b :: rest => optMax2 a (optMaxList (b :: rest))

/-- A style override wins over the computed geometry because delegateStyle
is spread after it. -/
def styleOv (o c : Option ℚ) : Option ℚ :=
  match o with
  | some v => some v
  | none => c

/-- DragNode.moveDelegate: redraw the synthetic delegate rectangle over the
union of the snapshotted bounding boxes, offset by the cumulative delta. -/
def moveDelegate (s : DragState) (deltaX deltaY : ℚ) : Effects :=
  let x1 := optMinList (s.originPositions.map Pos.minX)
  let y1 := optMinList (s.originPositions.map Pos.minY)
  let x2 := optMaxList (s.originPositions.map Pos.maxX)
  let y2 := optMaxList (s.originPositions.map Pos.maxY)
  let w := match x1, x2 with
    | some a, some b => some (b - a)
    | _, _ => none
  let h := match y1, y2 with
    | some a, some b => some (b - a)
    | _, _ => none
  let st := s.opts.delegateStyle
  { emptyEffects with transients :=
      [TCmd.upsertRect DELEGATE_SHAPE_ID
        (styleOv st.x (x1.map (· + deltaX)))
        (styleOv st.y (y1.map (· + deltaY)))
        (styleOv st.width w)
        (styleOv st.height h)] }

/-- DragNode.clearDelegate. -/
def clearDelegate : List TCmd := [TCmd.removeRect DELEGATE_SHAPE_ID]

/-- DragNode.clearTransientItems: remove every transient primitive drawn for
the gesture. -/
def clearTransientItems (s : DragState) (positions : List Pos) : List TCmd :=
  s.hiddenEdges.flatMap
    (fun e => [TCmd.removeNode e.source, TCmd.removeNode e.target, TCmd.removeEdge e.id]) ++
  s.hiddenNearEdges.map (fun e => TCmd.removeEdge e.id) ++
  s.hiddenComboTreeItems.map
    (fun c => if c.isCombo then TCmd.removeCombo c.id else TCmd.removeNode c.id) ++
  positions.map (fun p => TCmd.removeNode p.id)

/-! ## Restoring hidden items -/

/-- The visibility-and-cache pair threaded through restoreHiddenItems. -/
structure RestorePass where
  visible : ID → List String
  cache : ID → Option (List String)

/-- One step of a cached restore: showItem with the cached sub-shape ids
(falling back to the full default set when no entry exists), then delete the
cache entry. -/
def showCachedOne (full : ID → List String) (st : RestorePass) (i : ID) : RestorePass :=
  ⟨fun k => if k = i then (st.cache i).getD (full i) else st.visible k,
   fun k => if k = i then none else st.cache k⟩

/-- One step of a default restore (near edges): showItem without shapeIds,
then delete the cache entry. -/
def showDefaultOne (full : ID → List String) (st : RestorePass) (i : ID) : RestorePass :=
  ⟨fun k => if k = i then full i else st.visible k,
   fun k => if k = i then none else st.cache k⟩

def restoreGroup (full : ID → List String) (ids : List ID) (st : RestorePass) : RestorePass :=
  ids.foldl (showCachedOne full) st

def restoreDefaultGroup (full : ID → List String) (ids : List ID) (st : RestorePass) :
    RestorePass :=
  ids.foldl (showDefaultOne full) st

/-- DragNode.restoreHiddenItems: related edges, related nodes, near edges
and combo-tree items in that order, then (in transient mode) the dragged
nodes themselves via originPositions.concat(positions); concat of an
undefined positions argument puts an undefined element in the list, whose id
read throws. -/
def restoreHiddenItems (s : DragState) (g : Graph) (positions : Option (List Pos)) :
    Except String (DragState × Graph) :=
  let st0 : RestorePass := ⟨g.visible, s.hiddenShapeCache⟩
  let st1 := restoreGroup g.fullShapes (s.hiddenEdges.map EdgeM.id) st0
  let st2 := restoreGroup g.fullShapes s.hiddenRelatedNodes st1
  let st3 := restoreDefaultGroup g.fullShapes (s.hiddenNearEdges.map EdgeM.id) st2
  let st4 := restoreGroup g.fullShapes (s.hiddenComboTreeItems.map ComboItem.id) st3
  let transientEff := s.opts.enableTransient && g.rendererType != "webgl-3d"
  if transientEff then
    match positions with
    | none => Except.error "TypeError: cannot read id of undefined"
    | some ps =>
      let st5 := restoreGroup g.fullShapes ((s.originPositions ++ ps).map Pos.id) st4
      Except.ok
        ({ s with hiddenEdges := [], hiddenRelatedNodes := [], hiddenNearEdges := [],
                  hiddenComboTreeItems := [], hiddenShapeCache := st5.cache },
         { g with visible := st5.visible })
  else
    Except.ok
      ({ s with hiddenEdges := [], hiddenRelatedNodes := [], hiddenNearEdges := [],
                hiddenComboTreeItems := [], hiddenShapeCache := st4.cache },
       { g with visible := st4.visible })

/-! ## Pointer handlers -/

structure PointerEventPt where
  x : ℚ
  y : ℚ
deriving DecidableEq, Repr

structure MoveEvent where
  x : ℚ
  y : ℚ
  itemId : Option ID
  now : ℚ
deriving DecidableEq, Repr

structure UpEvent where
  x : ℚ
  y : ℚ
  now : ℚ
deriving DecidableEq, Repr

structure DropEvent where
  x : ℚ
  y : ℚ
  now : ℚ
  itemId : Option ID
deriving DecidableEq, Repr

/-- DragNode.onPointerDown: gated by shouldBegin; records the pointer and
arms the gesture. -/
def onPointerDown (s : DragState) (ev : PointerEventPt) : DragState :=
  if !s.opts.shouldBegin then s
  else { s with pointerDown := some (ev.x, ev.y), dragging := false }

/-- The first-qualifying-move initialization of onPointerMove: resolve the
selection, snapshot origin positions, hide or draw transiently per the
configuration, raise the dragged nodes otherwise, install a fresh throttle
wrapper and record the drag reference point. -/
def dragStartInit (s : DragState) (g : Graph) (ev : MoveEvent) :
    Except String (DragState × Graph × Effects × ThrottleState) := do
  let transientEff := s.opts.enableTransient && g.rendererType != "webgl-3d"
  let selected0 := g.findIdByState s.opts.selectedState
  let selected :=
    match ev.itemId with
    | some cid => if cid ∈ selected0 then selected0 else [cid]
    | none => selected0
  let (origin, warns) := snapshotPositions s.opts g selected
  let s1 := { s with dragging := true, selectedNodeIds := selected, originPositions := origin }
  -- Hide related edge.
  let (s2, g2) ←
    if s.opts.hideRelatedEdges && !transientEff then do
      let items ← getComboTreeItems s.opts g selected
      let hiddenEdges := getRelatedEdges g selected items
      let hiddenRelated := getRelatedNodes g selected
      let (ga, ca) := cacheThenHide g s1.hiddenShapeCache (hiddenEdges.map EdgeM.id)
      let (gb, cb) := cacheThenHide ga ca hiddenRelated
      let (gc, cc) := cacheThenHide gb cb (items.map ComboItem.id)
      pure ({ s1 with hiddenComboTreeItems := items, hiddenEdges := hiddenEdges,
                      hiddenRelatedNodes := hiddenRelated, hiddenShapeCache := cc }, gc)
    else pure (s1, g)
  -- Draw transient nodes and edges, or raise the real ones.
  let (s3, g3, eff3) ←
    if transientEff then do
      let items ← getComboTreeItems s.opts g2 selected
      let hiddenEdges := getRelatedEdges g2 selected items
      let hiddenRelated := getRelatedNodes g2 selected
      let effDraw : List TCmd :=
        selected.map (fun id => TCmd.upsertNode id none (!s.opts.updateComboStructure)) ++
        hiddenEdges.map (fun e => TCmd.upsertEdge e.id false)
      let (ga, ca) := cacheThenHide g2 s2.hiddenShapeCache selected
      let (gb, cb) := cacheThenHide ga ca (hiddenEdges.map EdgeM.id)
      let (gc, cc) := cacheThenHide gb cb hiddenRelated
      let (gd, cd) := cacheThenHide gc cc (items.map ComboItem.id)
      pure ({ s2 with hiddenComboTreeItems := items, hiddenEdges := hiddenEdges,
                      hiddenRelatedNodes := hiddenRelated, hiddenShapeCache := cd },
            gd, { emptyEffects with transients := effDraw })
    else
      pure (s2, g2, { emptyEffects with fronted := selected })
  pure ({ s3 with originX := ev.x, originY := ev.y },
        g3,
        Effects.append { emptyEffects with warnings := warns } eff3,
        freshThrottle)

/-- The per-frame near-edge maintenance for nodes flagged to prevent
polyline overlap: diff the near set, restore and un-draw the edges no longer
near (default show), draw and hide the newly near ones (cached). -/
def nearEdgeUpdate (s : DragState) (g : Graph) : DragState × Graph × Effects :=
  let preventIds := s.selectedNodeIds.filter (fun id =>
    match g.nodes id with
    | some r => r.preventPolylineOverlap
    | none => false)
  if preventIds.isEmpty then (s, g, emptyEffects)
  else
    let hiddenEdgesIds := s.hiddenEdges.map EdgeM.id
    let cacheList := s.hiddenNearEdges
    let newNear := (getNearEdgesForNodes g preventIds).filter
      (fun e => e.id ∉ hiddenEdgesIds)
    let newNearIds := newNear.map EdgeM.id
    let restoreList := cacheList.filter (fun e => e.id ∉ newNearIds)
    let effRestore := restoreList.map (fun e => TCmd.removeEdge e.id)
    let g1 := restoreList.foldl (fun gg e => showItem gg e.id none) g
    let sA := { s with hiddenNearEdgesCache := cacheList, hiddenNearEdges := newNear }
    if newNear.isEmpty then (sA, g1, { emptyEffects with transients := effRestore })
    else
      let effDraw := newNear.map (fun e => TCmd.upsertEdge e.id true)
      let (g2, c2) := cacheThenHide g1 sA.hiddenShapeCache newNearIds
      ({ sA with hiddenShapeCache := c2 }, g2,
       { emptyEffects with transients := effRestore ++ effDraw })

/-- DragNode.onPointerMove: threshold gating, drag-start initialization,
near-edge maintenance, then either the delegate rectangle or the (possibly
throttled) node move. -/
def onPointerMove (s : DragState) (ts : ThrottleState) (g : Graph) (ev : MoveEvent) :
    Except String (DragState × ThrottleState × Graph × Effects) :=
  match s.pointerDown with
  | none => Except.ok (s, ts, g, emptyEffects)
  | some pd =>
    if |pd.1 - ev.x| < 1 ∧ |pd.2 - ev.y| < 1 then Except.ok (s, ts, g, emptyEffects)
    else
      let transientEff := s.opts.enableTransient && g.rendererType != "webgl-3d"
      do
      let (s1, g1, eff1, ts1) ←
        if s.dragging then pure (s, g, emptyEffects, ts)
        else dragStartInit s g ev
      let (s2, g2, eff2) :=
        if s1.dragging && transientEff then nearEdgeUpdate s1 g1 else (s1, g1, emptyEffects)
      if s2.originPositions.isEmpty || !s2.dragging then
        pure (s2, ts1, g2, Effects.append eff1 eff2)
      else
        let deltaX := ev.x - s2.originX
        let deltaY := ev.y - s2.originY
        if s2.opts.enableDelegate then
          pure (s2, ts1, g2, Effects.append (Effects.append eff1 eff2) (moveDelegate s2 deltaX deltaY))
        else if s2.opts.throttle > 0 then
          let invoke :=
            match ts1.lastInvoke with
            | none => true
            | some t => decide (ev.now - t ≥ s2.opts.throttle)
          if invoke then
            let (g3, eff3, _) :=
              moveNodes s2 g2 deltaX deltaY transientEff (!s2.opts.updateComboStructure)
            pure (s2, ⟨some ev.now, false⟩, g3, Effects.append (Effects.append eff1 eff2) eff3)
          else
            pure (s2, ⟨ts1.lastInvoke, true⟩, g2, Effects.append eff1 eff2)
        else
          let (g3, eff3, _) :=
            moveNodes s2 g2 deltaX deltaY transientEff (!s2.opts.updateComboStructure)
          pure (s2, ts1, g3, Effects.append (Effects.append eff1 eff2) eff3)

/-- The synchronous part of onPointerUp: reset the gesture flags and commit
the final delta (with the source's 0.01 nudge on both axes) to the real node
positions, unconditionally and without consulting the throttle wrapper.
Returns the positions snapshot handed to the debounced completion
callback. -/
def onPointerUpPhase1 (s : DragState) (g : Graph) (ev : UpEvent) :
    DragState × Graph × Effects × List Pos :=
  let s1 := { s with pointerDown := none, dragging := false, selectedNodeIds := [] }
  let deltaX := ev.x - s.originX + 1/100
  let deltaY := ev.y - s.originY + 1/100
  let (g1, effMove, psOpt) := moveNodes s1 g deltaX deltaY false true
  (s1, g1, effMove, psOpt.getD [])

/-- The debounced completion callback of onPointerUp: clear transient
primitives and the delegate rectangle, restore all hidden items, emit the
configured completion event, reset the state. -/
def runSettle (s : DragState) (g : Graph) (positions : List Pos) :
    Except String (DragState × Graph × Effects) :=
  let transientEff := s.opts.enableTransient && g.rendererType != "webgl-3d"
  let effClear : List TCmd := if transientEff then clearTransientItems s positions else []
  let effDelegate : List TCmd := if s.opts.enableDelegate then clearDelegate else []
  match restoreHiddenItems s g (some positions) with
  | Except.error e => Except.error e
  | Except.ok (s2, g2) =>
    let events :=
      if s.opts.eventName ≠ "" then [(s.opts.eventName, positions.map Pos.id)] else []
    Except.ok ({ s2 with originPositions := [] }, g2,
               { emptyEffects with events := events, transients := effClear ++ effDelegate })

/-- Threads the settle result back into a handler result, keeping the
throttle wrapper untouched and appending the commit effects. -/
def settleWrap (ts : ThrottleState) (effMove : Effects)
    (r : Except String (DragState × Graph × Effects)) :
    Except String (DragState × ThrottleState × Graph × Effects) :=
  match r with
  | Except.error e => Except.error e
  | Except.ok (s2, g2, effSettle) =>
    Except.ok (s2, ts, g2, Effects.append effMove effSettle)

/-- DragNode.onPointerUp: the synchronous commit followed by the settle
callback. The throttle wrapper is neither consulted nor altered. -/
def onPointerUp (s : DragState) (ts : ThrottleState) (g : Graph) (ev : UpEvent) :
    Except String (DragState × ThrottleState × Graph × Effects) :=
  let (s1, g1, effMove, ps) := onPointerUpPhase1 s g ev
  settleWrap ts effMove (runSettle s1 g1 ps)

/-- DragNode.onKeydown (Escape): clear the delegate rectangle and the
transient primitives, restore hidden items, and, when neither transient nor
delegate mode applies, revert every dragged node to its origin snapshot.
No completion event is emitted. -/
def onKeydown (s : DragState) (g : Graph) (key : String) :
    Except String (DragState × Graph × Effects) :=
  if key ≠ "Escape" ∧ key ≠ "Esc" then Except.ok (s, g, emptyEffects)
  else
    let effDelegate := clearDelegate
    let effClear := clearTransientItems s s.originPositions
    match restoreHiddenItems s g none with
    | Except.error e => Except.error e
    | Except.ok (s2, g2) =>
      let transientEff := s.opts.enableTransient && g.rendererType != "webgl-3d"
      let g3 :=
        if !transientEff && !s.opts.enableDelegate then
          updateNodePosition g2 (s.originPositions.map (fun p => (p.id, p.x, p.y)))
        else g2
      Except.ok ({ s2 with originPositions := [] }, g3,
                 { emptyEffects with transients := effDelegate ++ effClear })

/-- DragNode.onDropCombo: the drop target is the combo under the pointer;
after the synchronous part of onPointerUp, every dragged node whose parent
differs is reparented through a structural data update, the state is
cleared, and the debounced settle then runs. -/
def onDropCombo (s : DragState) (ts : ThrottleState) (g : Graph) (ev : DropEvent) :
    Except String (DragState × ThrottleState × Graph × Effects) :=
  let newParentId := ev.itemId
  let (s1, g1, effMove, ps) := onPointerUpPhase1 s g ⟨ev.x, ev.y, ev.now⟩
  let updates := s1.originPositions.filterMap (fun p =>
    match g1.nodes p.id with
    | none => none
    | some m => if m.parentId = newParentId then none else some p.id)
  let g2 := updates.foldl (fun gg i => updateDataParent gg i newParentId) g1
  let s2 := { s1 with originPositions := [] }
  settleWrap ts effMove (runSettle s2 g2 ps)

/-- The body of the originPositions.forEach of onDropCanvas: reading the
data of a dragged node id no longer in the graph throws; otherwise the node
is reparented to the resolved drop parent, or to the canvas when it had a
parent but no drop parent was found. -/
def dropCanvasStep (g1 : Graph) (parentId : Option ID)
    (acc : List (ID × Option ID)) (p : Pos) : Except String (List (ID × Option ID)) :=
  match g1.nodes p.id with
  | none => Except.error "TypeError: cannot read data of undefined"
  | some m =>
    if parentId.isSome ∧ m.parentId ≠ parentId then Except.ok (acc ++ [(p.id, parentId)])
    else if m.parentId = none then Except.ok acc
    else Except.ok (acc ++ [(p.id, none)])

/-- The tail of onDropCanvas after the forEach: apply the collected parent
updates as one batch data update, clear the state and run the debounced
settle; a thrown TypeError from the forEach aborts instead. -/
def dropFinish (ts : ThrottleState) (effMove : Effects) (ps : List Pos)
    (s1 : DragState) (g1 : Graph)
    (r : Except String (List (ID × Option ID))) :
    Except String (DragState × ThrottleState × Graph × Effects) :=
  match r with
  | Except.error e => Except.error e
  | Except.ok updates =>
    let g2 := updates.foldl (fun gg u => updateDataParent gg u.1 u.2) g1
    let s2 := { s1 with originPositions := [] }
    settleWrap ts effMove (runSettle s2 g2 ps)

/-- DragNode.onDropCanvas: resolve the topmost non-dragged item under the
pointer, then after the synchronous part of onPointerUp reparent each
dragged node; reading the data of a dragged node id that is no longer in
the graph throws (the handler has no missing-id guard). -/
def onDropCanvas (s : DragState) (ts : ThrottleState) (g : Graph)
    (hit : List (Option ID)) (ev : DropEvent) :
    Except String (DragState × ThrottleState × Graph × Effects) :=
  let draggingIds := s.originPositions.map Pos.id
  let currentIds := (hit.filterMap id).filter (fun i => i ∉ draggingIds)
  let dropId := currentIds.find? (fun i => (g.combos i).isSome || (g.nodes i).isSome)
  let parentId : Option ID :=
    match dropId with
    | none => none
    | some d =>
      match g.nodes d with
      | some m => m.parentId
      | none => some d
  let (s1, g1, effMove, ps) := onPointerUpPhase1 s g ⟨ev.x, ev.y, ev.now⟩
  dropFinish ts effMove ps s1 g1 (s1.originPositions.foldlM (dropCanvasStep g1 parentId) [])

/-! ## Event registration -/

inductive Handler where
  | hOnPointerDown
  | hOnPointerMove
  | hOnClick
  | hOnPointerUp
  | hOnKeydown
  | hOnDropNode
  | hOnDropCombo
  | hOnDropCanvas
deriving DecidableEq, Repr

/-- DragNode.getEvents: the dispatch table; the three drop handlers are
registered only when updateComboStructure is on, and a plain pointerup
substitute for click only when it is off. -/
def getEvents (opts : Options) : List (String × Handler) :=
  let events : List (String × Handler) :=
    [("node:pointerdown", Handler.hOnPointerDown),
     ("pointermove", Handler.hOnPointerMove),
     ("click", Handler.hOnClick),
     ("node:pointerup", Handler.hOnPointerUp),
     ("keydown", Handler.hOnKeydown)]
  if opts.updateComboStructure then
    [("node:drop", Handler.hOnDropNode),
     ("combo:drop", Handler.hOnDropCombo),
     ("canvas:drop", Handler.hOnDropCanvas)] ++ events
  else
    ("pointerup", Handler.hOnClick) :: events

/-! ## Polyline edge renderer: the routing choice -/

abbrev Point := ℚ × ℚ

/-- The routing configuration assembled in drawKeyShape. -/
structure RouterCfg where
  name : String
  offset : ℚ
deriving DecidableEq, Repr

/-- lodash isEmpty on the optional controlPoints array. -/
def isEmptyCP (cp : Option (List Point)) : Bool :=
  match cp with
  | none => true
  | some l => l.isEmpty

/-- PolylineEdge.getPath: with control points given (auto off) and a
strategy other than the avoidance-orthogonal one the path is built directly
from the points, otherwise the Router (pathFinder) is consulted first. The
path builder and the router are abstract parameters. -/
def getPath {α : Type} (gpp : ID → List Point → ℚ → String)
    (pf : List Point → ID → ID → α → RouterCfg → List Point)
    (nodeMap : α) (edgeId sourceNodeId targetNodeId : ID)
    (points : List Point) (radius : ℚ) (routeCfg : RouterCfg) (auto : Bool) : String :=
  if !auto && routeCfg.name != "er" then gpp edgeId points radius
  else gpp edgeId (pf points sourceNodeId targetNodeId nodeMap routeCfg) radius

/-- The key-shape style fields that feed the routing choice. -/
structure KeyShapeStyle where
  controlPoints : Option (List Point)
  radius : ℚ
  offset : ℚ
  routeCfgName : Option String
  routeCfgOffset : Option ℚ
deriving DecidableEq, Repr

/-- The point list drawKeyShape builds: source, the control points when
given, target. -/
def keyShapePoints (style : KeyShapeStyle) (sourcePoint targetPoint : Point) : List Point :=
  match style.controlPoints with
  | some cps => sourcePoint :: (cps ++ [targetPoint])
  | none => [sourcePoint, targetPoint]

/-- The routeCfg drawKeyShape assembles with mix: name defaults to orth,
offset defaults to the keyShape offset. -/
def keyShapeRouteCfg (style : KeyShapeStyle) : RouterCfg :=
  { name := style.routeCfgName.getD "orth",
    offset := style.routeCfgOffset.getD style.offset }

/-- The path computation of PolylineEdge.drawKeyShape. -/
def drawKeyShapePath {α : Type} (gpp : ID → List Point → ℚ → String)
    (pf : List Point → ID → ID → α → RouterCfg → List Point)
    (nodeMap : α) (edgeId sourceNodeId targetNodeId : ID)
    (style : KeyShapeStyle) (sourcePoint targetPoint : Point) : String :=
  getPath gpp pf nodeMap edgeId sourceNodeId targetNodeId
    (keyShapePoints style sourcePoint targetPoint) style.radius
    (keyShapeRouteCfg style) (isEmptyCP style.controlPoints)

/-! ## Concrete scenarios -/

/-- A graph holding the single node a at (200, 100) whose visible sub-shape
set is the key shape only, while its full default sub-shape set also has a
label shape. -/
def gA : Graph :=
  { nodes := fun i => if i = "a" then some ⟨200, 100, none, false⟩ else none
    combos := fun _ => none
    comboCount := 0
    visible := fun i => if i = "a" then ["keyShape"] else []
    fullShapes := fun _ => ["keyShape", "labelShape"]
    relatedEdgesData := fun _ => []
    neighborNodesData := fun _ => []
    nearEdgesAvoid := fun _ => []
    findIdByState := fun _ => []
    renderBBox := fun _ => none
    comboTreeDfs := fun _ => []
    rendererType := "canvas" }

/-- Options for the C1 scenario: transient disabled, throttle 0, completion
event named dragend. -/
def optsC1 : Options :=
  finalOptions { enableTransient := some false, throttle := some 0, eventName := some "dragend" }

/-- The C1 gesture: pointer down on node a at (200,100), a first qualifying
move to (210,105), pointer up at (260,75) — a cumulative pointer delta of
(50,-30) from the drag reference point. Yields the final graph and the
settle effects. -/
def runC1 : Option (Graph × Effects) :=
  let s0 := onPointerDown (initState optsC1) ⟨200, 100⟩
  match onPointerMove s0 freshThrottle gA ⟨210, 105, some "a", 0⟩ with
  | Except.error _ => none
  | Except.ok (s1, ts1, g1, _) =>
    match onPointerUp s1 ts1 g1 ⟨260, 75, 1⟩ with
    | Except.error _ => none
    | Except.ok (_, _, g2, eff) => some (g2, eff)

/-- Final position of node a in the C1 gesture. -/
def runC1posA : Option (Option (ℚ × ℚ)) := runC1.map (fun r => posOf r.1 "a")

/-- Events emitted at the end of the C1 gesture. -/
def runC1events : Option (List (String × List ID)) := runC1.map (fun r => r.2.events)

/-- Options for the C2 scenario: transient enabled (the default), throttle
0, no completion event. -/
def optsC2 : Options := finalOptions { throttle := some 0 }

/-- The C2 gesture: a transient-mode drag of node a. Before the gesture a's
visible sub-shape set is the key shape only; the gesture hides a (caching
that set) and the settle restores it. -/
def runC2 : Option (Graph × Effects) :=
  let s0 := onPointerDown (initState optsC2) ⟨200, 100⟩
  match onPointerMove s0 freshThrottle gA ⟨210, 105, some "a", 0⟩ with
  | Except.error _ => none
  | Except.ok (s1, ts1, g1, _) =>
    match onPointerUp s1 ts1 g1 ⟨260, 75, 1⟩ with
    | Except.error _ => none
    | Except.ok (_, _, g2, eff) => some (g2, eff)

/-- Visible sub-shape set of node a after the C2 gesture settles. -/
def runC2visibleA : Option (List String) := runC2.map (fun r => r.1.visible "a")

/-- A drag state mid-gesture whose origin snapshot references the node id
ghost, which is absent from the graph. -/
def sGhost : DragState :=
  { initState (finalOptions { enableTransient := some false, throttle := some 0 }) with
      dragging := true
      pointerDown := none
      originX := 0
      originY := 0
      originPositions := [⟨"ghost", 0, 0, none, none, none, none⟩] }

/-- A graph with no nodes at all. -/
def gEmpty : Graph :=
  { nodes := fun _ => none
    combos := fun _ => none
    comboCount := 0
    visible := fun _ => []
    fullShapes := fun _ => []
    relatedEdgesData := fun _ => []
    neighborNodesData := fun _ => []
    nearEdgesAvoid := fun _ => []
    findIdByState := fun _ => []
    renderBBox := fun _ => none
    comboTreeDfs := fun _ => []
    rendererType := "canvas" }

/-- Options for the C8 scenario: updateComboStructure on (the default),
transient disabled, throttle 0. -/
def optsC8 : Options :=
  finalOptions { enableTransient := some false, throttle := some 0 }

/-- A graph with node a (no parent) and the combo c1. -/
def gC8 : Graph :=
  { gEmpty with
      nodes := fun i => if i = "a" then some ⟨200, 100, none, false⟩ else none
      combos := fun i => if i = "c1" then some ⟨none⟩ else none
      comboCount := 1
      fullShapes := fun _ => ["keyShape"] }

/-- A drag state mid-gesture dragging node a. -/
def sC8 : DragState :=
  { initState optsC8 with
      dragging := true
      pointerDown := some (200, 100)
      originX := 210
      originY := 100
      originPositions := [⟨"a", 200, 100, none, none, none, none⟩] }

/-- Dropping the dragged node a onto combo c1. -/
def runC8 : Option Graph :=
  match onDropCombo sC8 freshThrottle gC8 ⟨230, 110, 1, some "c1"⟩ with
  | Except.error _ => none
  | Except.ok (_, _, g, _) => some g

/-- Parent of node a after the C8 drop. -/
def runC8parentA : Option (Option (Option ID)) := runC8.map (fun g => parentOf g "a")

/-- A mid-gesture state holding one hidden item of each kind, with a cached
sub-shape set for the hidden edge, used to exercise the restore pass. -/
def sRestore : DragState :=
  { initState optsC1 with
      hiddenEdges := [⟨"e1", "a", "b"⟩]
      hiddenRelatedNodes := ["n1"]
      hiddenNearEdges := [⟨"ne1", "u", "v"⟩]
      hiddenComboTreeItems := [⟨"c9", true⟩]
      hiddenShapeCache := fun i => if i = "e1" then some ["keyShape"] else none }

/-- The union of a list of bounding boxes, written from the spec's words
(the delegate rect covers the union of the snapshotted bounding boxes); the
renderer-side moveDelegate is proved against it. -/
def unionBBox : List BBox → Option BBox
  | [] => none
  | [b] => some b
  | b :: rest =>
    match unionBBox rest with
    | some u => some ⟨min b.minX u.minX, min b.minY u.minY, max b.maxX u.maxX, max b.maxY u.maxY⟩
    | none => none

/-! # Theorems -/

/-- Delegate mode forces transient off in the resolved options. -/
theorem applyFixups_delegate_transient (m : Options) :
    (applyFixups m).enableDelegate = true → (applyFixups m).enableTransient = false := by
  obtain ⟨t, d, ds, th, hr, ss, en, ucs, sb⟩ := m
  cases d <;> cases t <;> simp [applyFixups]

/-- Delegate or transient forces hideRelatedEdges off in the resolved
options. -/
theorem applyFixups_hideRelatedEdges (m : Options) :
    (applyFixups m).enableDelegate = true ∨ (applyFixups m).enableTransient = true →
    (applyFixups m).hideRelatedEdges = false := by
  obtain ⟨t, d, ds, th, hr, ss, en, ucs, sb⟩ := m
  cases d <;> cases t <;> simp [applyFixups]

/-- Claim C5: for every options object passed to the DragNode constructor,
contradictory options are resolved by a fixed precedence rather than
rejected: if enableDelegate is true then the effective enableTransient is
false, and if either enableDelegate or enableTransient is true then the
effective hideRelatedEdges is false. -/
theorem c5_options_precedence (po : PartialOptions) :
    ((finalOptions po).enableDelegate = true → (finalOptions po).enableTransient = false) ∧
    ((finalOptions po).enableDelegate = true ∨ (finalOptions po).enableTransient = true →
      (finalOptions po).hideRelatedEdges = false) :=
  ⟨applyFixups_delegate_transient _, applyFixups_hideRelatedEdges _⟩

/-- Witness for C5 at the concrete options requesting both delegate mode
and hideRelatedEdges. -/
theorem c5_options_precedence_witness :
    (finalOptions { enableDelegate := some true, hideRelatedEdges := some true }).enableTransient
      = false ∧
    (finalOptions { enableDelegate := some true, hideRelatedEdges := some true }).hideRelatedEdges
      = false :=
  ⟨(c5_options_precedence _).1 rfl, (c5_options_precedence _).2 (Or.inl rfl)⟩

/-- Claim C10: getComboTreeItems returns the empty list whenever the
updateComboStructure option is true, so in that mode no ancestor combo is
collected for hiding or transient holding. -/
theorem c10_combo_items_empty_when_restructure (opts : Options) (g : Graph) (ids : List ID)
    (h : opts.updateComboStructure = true) :
    getComboTreeItems opts g ids = Except.ok [] := by
  simp [getComboTreeItems, h]

/-- Witness for C10 at the concrete drop scenario options and graph. -/
theorem c10_combo_items_empty_when_restructure_witness :
    optsC8.updateComboStructure = true ∧
    getComboTreeItems optsC8 gC8 ["a"] = Except.ok [] :=
  ⟨rfl, c10_combo_items_empty_when_restructure optsC8 gC8 ["a"] rfl⟩

/-- Claim C6: when drawing an edge's key shape, if the edge has explicit
control points and the configured routing strategy is not the
avoidance-orthogonal one (er), the Router (pathFinder) is skipped and the
path is built directly from the given points — independently of the router
function; otherwise (no control points, or the er strategy is configured)
the Router is invoked first and the path is built from its returned
waypoints. -/
theorem c6_router_skip_choice {α : Type} (gpp : ID → List Point → ℚ → String)
    (pf pf2 : List Point → ID → ID → α → RouterCfg → List Point) (nodeMap : α)
    (edgeId src tgt : ID) (style : KeyShapeStyle) (sp tp : Point) :
    (isEmptyCP style.controlPoints = false → (keyShapeRouteCfg style).name ≠ "er" →
      drawKeyShapePath gpp pf nodeMap edgeId src tgt style sp tp =
        gpp edgeId (keyShapePoints style sp tp) style.radius ∧
      drawKeyShapePath gpp pf nodeMap edgeId src tgt style sp tp =
        drawKeyShapePath gpp pf2 nodeMap edgeId src tgt style sp tp) ∧
    (isEmptyCP style.controlPoints = true ∨ (keyShapeRouteCfg style).name = "er" →
      drawKeyShapePath gpp pf nodeMap edgeId src tgt style sp tp =
        gpp edgeId
          (pf (keyShapePoints style sp tp) src tgt nodeMap (keyShapeRouteCfg style))
          style.radius) := by
  constructor
  · intro hcp hname
    simp [drawKeyShapePath, getPath, hcp, hname]
  · intro h
    rcases h with h | h
    · simp [drawKeyShapePath, getPath, h]
    · simp [drawKeyShapePath, getPath, h]

/-- Witness for C6: a style with one control point and the default orth
strategy skips the router; a style without control points invokes it. -/
theorem c6_router_skip_choice_witness :
    (drawKeyShapePath (fun e pts r => e ++ toString pts.length ++ toString r.num)
        (fun pts _ _ _ _ => pts ++ pts) () "e" "s" "t"
        ⟨some [(5, 5)], 2, 0, none, none⟩ (0, 0) (10, 10) =
      (fun (e : ID) (pts : List Point) (r : ℚ) => e ++ toString pts.length ++ toString r.num)
        "e" (keyShapePoints ⟨some [(5, 5)], 2, 0, none, none⟩ (0, 0) (10, 10)) 2) ∧
    (drawKeyShapePath (fun e pts r => e ++ toString pts.length ++ toString r.num)
        (fun pts _ _ _ _ => pts ++ pts) () "e" "s" "t"
        ⟨none, 2, 0, none, none⟩ (0, 0) (10, 10) =
      (fun (e : ID) (pts : List Point) (r : ℚ) => e ++ toString pts.length ++ toString r.num)
        "e"
        ((fun (pts : List Point) (_ _ : ID) (_ : Unit) (_ : RouterCfg) => pts ++ pts)
          (keyShapePoints ⟨none, 2, 0, none, none⟩ (0, 0) (10, 10)) "s" "t" ()
          (keyShapeRouteCfg ⟨none, 2, 0, none, none⟩)) 2) :=
  ⟨((c6_router_skip_choice (fun e pts r => e ++ toString pts.length ++ toString r.num)
      (fun pts _ _ _ _ => pts ++ pts) (fun pts _ _ _ _ => pts ++ pts) () "e" "s" "t"
      ⟨some [(5, 5)], 2, 0, none, none⟩ (0, 0) (10, 10)).1
      rfl (by simp [keyShapeRouteCfg])).1,
   (c6_router_skip_choice (fun e pts r => e ++ toString pts.length ++ toString r.num)
      (fun pts _ _ _ _ => pts ++ pts) (fun pts _ _ _ _ => pts ++ pts) () "e" "s" "t"
      ⟨none, 2, 0, none, none⟩ (0, 0) (10, 10)).2
      (Or.inl rfl)⟩

/-- Claim C1, counterexample: in the concrete drag of node a (origin
200,100) with transient disabled and throttle 0, a cumulative pointer delta
of (50,-30) does not commit the final position (250, 70): onPointerUp adds
a 0.01 nudge to both axes, so the committed position is (250.01, 70.01). -/
theorem c1_counterexample_nudge :
    runC1posA = some (some (25001/100, 7001/100)) ∧
    runC1posA ≠ some (some (250, 70)) := by
  have h : runC1posA = some (some (25001/100, 7001/100)) := by
    simp [runC1posA, runC1, onPointerDown, onPointerMove, dragStartInit, initState,
      optsC1, finalOptions, applyFixups, DEFAULT_OPTIONS, gA, snapshotPositions, snapshotOne,
      getComboTreeItems, getRelatedEdges, getRelatedNodes, getNearEdgesForNodes,
      nearEdgeUpdate, moveNodes, updateNodePosition, onPointerUp, onPointerUpPhase1,
      settleWrap, runSettle, restoreHiddenItems, restoreGroup, restoreDefaultGroup, showCachedOne,
      showDefaultOne, clearTransientItems, clearDelegate, cacheThenHide, hideItems,
      showItem, uniqBy, posOf, emptyEffects, Effects.append, freshThrottle, moveDelegate,
      Option.getD, bind, Except.bind, pure, Except.pure]
    norm_num [lookupPC]
  refine ⟨h, ?_⟩
  rw [h]
  intro hc
  rw [Option.some_inj, Option.some_inj, Prod.mk.injEq] at hc
  exact absurd hc.1 (by norm_num)

/-- Claim C1, amended: the same gesture commits node a at exactly
(250.01, 70.01) — the pointer delta plus the 0.01 nudge of onPointerUp on
both axes — and, since the eventName option is dragend, emits one dragend
event whose payload itemIds is exactly the list holding a. -/
theorem c1_amended_drag_commit :
    runC1posA = some (some (25001/100, 7001/100)) ∧
    runC1events = some [("dragend", ["a"])] := by
  constructor
  · simp [runC1posA, runC1, onPointerDown, onPointerMove, dragStartInit, initState,
      optsC1, finalOptions, applyFixups, DEFAULT_OPTIONS, gA, snapshotPositions, snapshotOne,
      getComboTreeItems, getRelatedEdges, getRelatedNodes, getNearEdgesForNodes,
      nearEdgeUpdate, moveNodes, updateNodePosition, onPointerUp, onPointerUpPhase1,
      settleWrap, runSettle, restoreHiddenItems, restoreGroup, restoreDefaultGroup, showCachedOne,
      showDefaultOne, clearTransientItems, clearDelegate, cacheThenHide, hideItems,
      showItem, uniqBy, posOf, emptyEffects, Effects.append, freshThrottle, moveDelegate,
      Option.getD, bind, Except.bind, pure, Except.pure]
    norm_num [lookupPC]
  · simp [runC1events, runC1, onPointerDown, onPointerMove, dragStartInit, initState,
      optsC1, finalOptions, applyFixups, DEFAULT_OPTIONS, gA, snapshotPositions, snapshotOne,
      getComboTreeItems, getRelatedEdges, getRelatedNodes, getNearEdgesForNodes,
      nearEdgeUpdate, moveNodes, updateNodePosition, onPointerUp, onPointerUpPhase1,
      settleWrap, runSettle, restoreHiddenItems, restoreGroup, restoreDefaultGroup, showCachedOne,
      showDefaultOne, clearTransientItems, clearDelegate, cacheThenHide, hideItems,
      showItem, uniqBy, posOf, emptyEffects, Effects.append, freshThrottle, moveDelegate,
      Option.getD, bind, Except.bind, pure, Except.pure]
    norm_num [lookupPC]
    exact ⟨_, _, ⟨rfl, rfl⟩, rfl⟩

/-- Claim C2, counterexample: in a concrete transient-mode drag of node a
whose pre-gesture visible sub-shape set is the key shape only, the settled
visible set is the full default set (key shape and label shape): the settle
pass shows the dragged node twice via originPositions.concat(positions),
and the second show finds the cache entry already deleted and falls back to
a default show-everything restore. -/
theorem c2_counterexample_default_restore :
    runC2visibleA = some ["keyShape", "labelShape"] ∧
    gA.visible "a" = ["keyShape"] ∧
    runC2visibleA ≠ some (gA.visible "a") := by
  have h : runC2visibleA = some ["keyShape", "labelShape"] := by
    simp [runC2visibleA, runC2, onPointerDown, onPointerMove, dragStartInit, initState,
      optsC2, finalOptions, applyFixups, DEFAULT_OPTIONS, gA, snapshotPositions, snapshotOne,
      getComboTreeItems, getRelatedEdges, getRelatedNodes, getNearEdgesForNodes,
      nearEdgeUpdate, moveNodes, updateNodePosition, onPointerUp, onPointerUpPhase1,
      settleWrap, runSettle, restoreHiddenItems, restoreGroup, restoreDefaultGroup, showCachedOne,
      showDefaultOne, clearTransientItems, clearDelegate, cacheThenHide, hideItems,
      showItem, uniqBy, posOf, emptyEffects, Effects.append, freshThrottle, moveDelegate,
      Option.getD, bind, Except.bind, pure, Except.pure]
    norm_num [lookupPC, showCachedOne, showDefaultOne, restoreGroup, Option.getD]
    simp
  have hg : gA.visible "a" = ["keyShape"] := by simp [gA]
  refine ⟨h, hg, ?_⟩
  rw [h, hg]
  simp

/-- Claim C7, counterexample: onDropCanvas with a dragged node id that is no
longer in the graph throws a TypeError instead of logging a warning and
skipping the id — the gesture aborts. -/
theorem c7_counterexample_drop_canvas_throws :
    onDropCanvas sGhost freshThrottle gEmpty [] ⟨0, 0, 0, none⟩ =
      Except.error "TypeError: cannot read data of undefined" := by
  simp [onDropCanvas, sGhost, gEmpty, initState, finalOptions, applyFixups,
    DEFAULT_OPTIONS, onPointerUpPhase1, moveNodes, updateNodePosition, dropCanvasStep,
    dropFinish, settleWrap, freshThrottle, emptyEffects, Effects.append, Option.getD, lookupPC]

/-! ## Infrastructure lemmas on the restore and update primitives -/

/-- A cached-restore fold leaves ids outside the group untouched. -/
theorem restoreGroup_not_mem (full : ID → List String) :
    ∀ (ids : List ID) (st : RestorePass) (i : ID), i ∉ ids →
      (restoreGroup full ids st).visible i = st.visible i ∧
      (restoreGroup full ids st).cache i = st.cache i := by
  intro ids
  induction ids with
  | nil => intro st i _; exact ⟨rfl, rfl⟩
  | cons a l ih =>
    intro st i hi
    have hia : i ≠ a := fun h => hi (h ▸ List.mem_cons_self a l)
    have hil : i ∉ l := fun h => hi (List.mem_cons_of_mem a h)
    have hstep : (showCachedOne full st a).visible i = st.visible i ∧
        (showCachedOne full st a).cache i = st.cache i := by
      constructor <;> simp [showCachedOne, hia]
    have := ih (showCachedOne full st a) i hil
    exact ⟨this.1.trans hstep.1, this.2.trans hstep.2⟩

/-- A default-restore fold leaves ids outside the group untouched. -/
theorem restoreDefaultGroup_not_mem (full : ID → List String) :
    ∀ (ids : List ID) (st : RestorePass) (i : ID), i ∉ ids →
      (restoreDefaultGroup full ids st).visible i = st.visible i ∧
      (restoreDefaultGroup full ids st).cache i = st.cache i := by
  intro ids
  induction ids with
  | nil => intro st i _; exact ⟨rfl, rfl⟩
  | cons a l ih =>
    intro st i hi
    have hia : i ≠ a := fun h => hi (h ▸ List.mem_cons_self a l)
    have hil : i ∉ l := fun h => hi (List.mem_cons_of_mem a h)
    have hstep : (showDefaultOne full st a).visible i = st.visible i ∧
        (showDefaultOne full st a).cache i = st.cache i := by
      constructor <;> simp [showDefaultOne, hia]
    have := ih (showDefaultOne full st a) i hil
    exact ⟨this.1.trans hstep.1, this.2.trans hstep.2⟩

/-- A cached-restore fold over a duplicate-free group shows each member
exactly once with its cached sub-shape set and drains its cache entry. -/
theorem restoreGroup_mem (full : ID → List String) :
    ∀ (ids : List ID) (st : RestorePass) (i : ID), ids.Nodup → i ∈ ids →
      (restoreGroup full ids st).visible i = (st.cache i).getD (full i) ∧
      (restoreGroup full ids st).cache i = none := by
  intro ids
  induction ids with
  | nil => intro st i _ hi; exact absurd hi (List.not_mem_nil i)
  | cons a l ih =>
    intro st i hnd hi
    have hal : a ∉ l := (List.nodup_cons.mp hnd).1
    have hl : l.Nodup := (List.nodup_cons.mp hnd).2
    rcases List.mem_cons.mp hi with hia | hil
    · subst hia
      have hrest := restoreGroup_not_mem full l (showCachedOne full st i) i hal
      refine ⟨hrest.1.trans ?_, hrest.2.trans ?_⟩ <;> simp [showCachedOne]
    · have hia : i ≠ a := fun h => hal (h ▸ hil)
      have hstep : (showCachedOne full st a).cache i = st.cache i ∧
          (showCachedOne full st a).visible i = st.visible i := by
        constructor <;> simp [showCachedOne, hia]
      have := ih (showCachedOne full st a) i hl hil
      exact ⟨this.1.trans (by rw [hstep.1]), this.2⟩

/-- A default-restore fold over a duplicate-free group shows each member
with its full default sub-shape set and drains its cache entry. -/
theorem restoreDefaultGroup_mem (full : ID → List String) :
    ∀ (ids : List ID) (st : RestorePass) (i : ID), ids.Nodup → i ∈ ids →
      (restoreDefaultGroup full ids st).visible i = full i ∧
      (restoreDefaultGroup full ids st).cache i = none := by
  intro ids
  induction ids with
  | nil => intro st i _ hi; exact absurd hi (List.not_mem_nil i)
  | cons a l ih =>
    intro st i hnd hi
    have hal : a ∉ l := (List.nodup_cons.mp hnd).1
    have hl : l.Nodup := (List.nodup_cons.mp hnd).2
    rcases List.mem_cons.mp hi with hia | hil
    · subst hia
      have hrest := restoreDefaultGroup_not_mem full l (showDefaultOne full st i) i hal
      refine ⟨hrest.1.trans ?_, hrest.2.trans ?_⟩ <;> simp [showDefaultOne]
    · have hia : i ≠ a := fun h => hal (h ▸ hil)
      have := ih (showDefaultOne full st a) i hl hil
      exact ⟨this.1, this.2⟩

/-- First-match lookup over a mapped snapshot list finds the snapshot's own
entry when the snapshot ids are duplicate-free. -/
theorem lookupPC_map (f1 f2 : Pos → ℚ) :
    ∀ (l : List Pos) (p : Pos), p ∈ l → (l.map Pos.id).Nodup →
      lookupPC (l.map (fun q => (q.id, f1 q, f2 q))) p.id = some (f1 p, f2 p) := by
  intro l
  induction l with
  | nil => intro p hp _; exact absurd hp (List.not_mem_nil p)
  | cons q l ih =>
    intro p hp hnd
    have hql : q.id ∉ l.map Pos.id := (List.nodup_cons.mp hnd).1
    have hl : (l.map Pos.id).Nodup := (List.nodup_cons.mp hnd).2
    rcases List.mem_cons.mp hp with hpq | hpl
    · subst hpq
      simp [lookupPC]
    · have hne : q.id ≠ p.id := by
        intro h
        exact hql (h ▸ List.mem_map_of_mem Pos.id hpl)
      simp only [List.map_cons, lookupPC, if_neg hne]
      exact ih p hpl hl

/-- Batch position update leaves every node's parent untouched. -/
theorem updateNodePosition_parentOf (g : Graph) (changes : List (ID × ℚ × ℚ)) (i : ID) :
    parentOf (updateNodePosition g changes) i = parentOf g i := by
  unfold parentOf updateNodePosition
  cases h : lookupPC changes i <;> simp [h]
  cases g.nodes i <;> simp

/-- Batch position update keeps exactly the nodes that existed. -/
theorem updateNodePosition_isSome (g : Graph) (changes : List (ID × ℚ × ℚ)) (i : ID) :
    ((updateNodePosition g changes).nodes i).isSome = (g.nodes i).isSome := by
  unfold updateNodePosition
  cases h : lookupPC changes i <;> simp [h]

/-- Committing a delta through updateNodePosition moves each snapshotted
node (still present in the graph) to its snapshot position plus the
delta. -/
theorem updateNodePosition_posOf (g : Graph) (l : List Pos) (dx dy : ℚ) (p : Pos)
    (hp : p ∈ l) (hnd : (l.map Pos.id).Nodup) (hex : (g.nodes p.id).isSome) :
    posOf (updateNodePosition g (l.map (fun q => (q.id, q.x + dx, q.y + dy)))) p.id =
      some (p.x + dx, p.y + dy) := by
  obtain ⟨r, hr⟩ := Option.isSome_iff_exists.mp hex
  have hlk := lookupPC_map (fun q => q.x + dx) (fun q => q.y + dy) l p hp hnd
  unfold posOf updateNodePosition
  simp only [hlk, hr, Option.map_some']

/-- Reverting to the snapshot through updateNodePosition moves each
snapshotted node (still present) back to its exact snapshot position. -/
theorem updateNodePosition_posOf_plain (g : Graph) (l : List Pos) (p : Pos)
    (hp : p ∈ l) (hnd : (l.map Pos.id).Nodup) (hex : (g.nodes p.id).isSome) :
    posOf (updateNodePosition g (l.map (fun q => (q.id, q.x, q.y)))) p.id =
      some (p.x, p.y) := by
  obtain ⟨r, hr⟩ := Option.isSome_iff_exists.mp hex
  have hlk := lookupPC_map (fun q => q.x) (fun q => q.y) l p hp hnd
  unfold posOf updateNodePosition
  simp only [hlk, hr, Option.map_some']

/-- restoreHiddenItems with a positions list always succeeds and only
touches the visibility state of the graph. -/
theorem restore_some_ok (s : DragState) (g : Graph) (ps : List Pos) :
    ∃ s' g', restoreHiddenItems s g (some ps) = Except.ok (s', g') ∧
      g'.nodes = g.nodes ∧ g'.rendererType = g.rendererType := by
  simp only [restoreHiddenItems]
  split
  · exact ⟨_, _, rfl, rfl, rfl⟩
  · exact ⟨_, _, rfl, rfl, rfl⟩

/-- restoreHiddenItems without a positions list succeeds whenever transient
mode is off, touching only the visibility state. -/
theorem restore_none_ok (s : DragState) (g : Graph)
    (hT : s.opts.enableTransient = false) :
    ∃ s' g', restoreHiddenItems s g none = Except.ok (s', g') ∧
      g'.nodes = g.nodes ∧ g'.rendererType = g.rendererType := by
  simp only [restoreHiddenItems, hT, Bool.false_and, Bool.false_eq_true, if_false]
  exact ⟨_, _, rfl, rfl, rfl⟩

/-- The settle callback always succeeds when handed a positions list; it
does not change node data, warns about nothing, and emits exactly the
configured completion event with the moved item ids. -/
theorem runSettle_ok (s : DragState) (g : Graph) (ps : List Pos) :
    ∃ s' g' eff, runSettle s g ps = Except.ok (s', g', eff) ∧
      g'.nodes = g.nodes ∧
      eff.warnings = [] ∧
      eff.events = (if s.opts.eventName ≠ "" then [(s.opts.eventName, ps.map Pos.id)] else []) ∧
      s'.originPositions = [] := by
  obtain ⟨s2, g2, hr, hn, _⟩ := restore_some_ok s g ps
  simp only [runSettle, hr]
  exact ⟨_, _, _, rfl, hn, rfl, rfl, rfl⟩

/-- Claim C3: for every drag gesture with throttle greater than zero, the
commit performed on pointer-up is applied to the real node positions even
when pointer-up arrives before the current throttle window has elapsed: the
handler never consults the throttle wrapper, so the commit is never
suppressed by it (the committed delta is the final pointer delta plus the
0.01 nudge of onPointerUp). -/
theorem c3_pointerup_commit_unthrottled
    (s : DragState) (ts : ThrottleState) (g : Graph) (ev : UpEvent) (p : Pos) (t : ℚ)
    (hthr : 0 < s.opts.throttle)
    (hlast : ts.lastInvoke = some t)
    (hmid : ev.now < t + s.opts.throttle)
    (hp : p ∈ s.originPositions)
    (hnd : (s.originPositions.map Pos.id).Nodup)
    (hex : (g.nodes p.id).isSome) :
    ∃ s' g' eff, onPointerUp s ts g ev = Except.ok (s', ts, g', eff) ∧
      posOf g' p.id =
        some (p.x + (ev.x - s.originX + 1/100), p.y + (ev.y - s.originY + 1/100)) := by
  obtain ⟨s', g', eff, hsettle, hn, hw, hevs, ho⟩ :=
    runSettle_ok { s with pointerDown := none, dragging := false, selectedNodeIds := [] }
      (updateNodePosition g (s.originPositions.map
        (fun q => (q.id, q.x + (ev.x - s.originX + 1/100), q.y + (ev.y - s.originY + 1/100)))))
      s.originPositions
  refine ⟨s', g', Effects.append emptyEffects eff, ?_, ?_⟩
  · simp only [onPointerUp, onPointerUpPhase1, moveNodes, Bool.false_eq_true, if_false,
      Option.getD_some, hsettle, settleWrap]
  · have : posOf g' p.id = posOf (updateNodePosition g (s.originPositions.map
        (fun q => (q.id, q.x + (ev.x - s.originX + 1/100),
                         q.y + (ev.y - s.originY + 1/100))))) p.id := by
      unfold posOf
      rw [hn]
    rw [this]
    exact updateNodePosition_posOf g s.originPositions _ _ p hp hnd hex

/-- Witness for C3: a concrete gesture with the default 16ms throttle whose
pointer-up arrives 10ms into the window still commits the final delta. -/
theorem c3_pointerup_commit_unthrottled_witness :
    ∃ s' g' eff,
      onPointerUp
        { initState (finalOptions {}) with
            originX := 210, originY := 100,
            originPositions := [⟨"a", 200, 100, none, none, none, none⟩] }
        ⟨some 0, false⟩ gA ⟨260, 70, 10⟩ =
        Except.ok (s', ⟨some 0, false⟩, g', eff) ∧
      posOf g' "a" = some (200 + (260 - 210 + 1/100), 100 + (70 - 100 + 1/100)) :=
  c3_pointerup_commit_unthrottled
    { initState (finalOptions {}) with
        originX := 210, originY := 100,
        originPositions := [⟨"a", 200, 100, none, none, none, none⟩] }
    ⟨some 0, false⟩ gA ⟨260, 70, 10⟩ ⟨"a", 200, 100, none, none, none, none⟩ 0
    (by norm_num [initState, finalOptions, applyFixups, DEFAULT_OPTIONS])
    rfl
    (by norm_num [initState, finalOptions, applyFixups, DEFAULT_OPTIONS])
    (by simp)
    (by simp)
    (by simp [gA])

/-- Claim C4: for every drag gesture with both transient and delegate modes
disabled, pressing Escape restores every dragged node (still present in the
graph) to its exact pre-drag snapshot position, clears the delegate
rectangle, restores hidden items, resets the gesture state and does not
emit the completion event. -/
theorem c4_escape_rollback
    (s : DragState) (g : Graph) (p : Pos)
    (hT : s.opts.enableTransient = false)
    (hD : s.opts.enableDelegate = false)
    (hp : p ∈ s.originPositions)
    (hnd : (s.originPositions.map Pos.id).Nodup)
    (hex : (g.nodes p.id).isSome) :
    ∃ s' g' eff, onKeydown s g "Escape" = Except.ok (s', g', eff) ∧
      posOf g' p.id = some (p.x, p.y) ∧
      eff.events = [] ∧
      TCmd.removeRect DELEGATE_SHAPE_ID ∈ eff.transients ∧
      s'.originPositions = [] := by
  obtain ⟨s2, g2, hr, hn, hrt⟩ := restore_none_ok s g hT
  have hex2 : (g2.nodes p.id).isSome = true := by rw [hn]; exact hex
  simp only [onKeydown, ne_eq, hr, hT, hD, Bool.false_and, Bool.false_eq_true, if_false,
    Bool.not_false, Bool.and_self, if_true]
  rw [if_neg (by simp)]
  refine ⟨_, _, _, rfl, ?_, rfl, ?_, rfl⟩
  · exact updateNodePosition_posOf_plain g2 s.originPositions p hp hnd hex2
  · simp [clearDelegate]

/-- Witness for C4: Escape on the concrete mid-gesture state dragging node
a with transient and delegate off. -/
theorem c4_escape_rollback_witness :
    ∃ s' g' eff, onKeydown sC8 gC8 "Escape" = Except.ok (s', g', eff) ∧
      posOf g' "a" = some (200, 100) ∧
      eff.events = [] ∧
      TCmd.removeRect DELEGATE_SHAPE_ID ∈ eff.transients ∧
      s'.originPositions = [] :=
  c4_escape_rollback sC8 gC8 ⟨"a", 200, 100, none, none, none, none⟩
    (by simp [sC8, initState, optsC8, finalOptions, applyFixups, DEFAULT_OPTIONS])
    (by simp [sC8, initState, optsC8, finalOptions, applyFixups, DEFAULT_OPTIONS])
    (by simp [sC8, initState])
    (by simp [sC8, initState])
    (by simp [gC8, gEmpty])

/-- A union of a nonempty list of boxes always exists. -/
theorem unionBBox_ne_nil : ∀ (bbs : List BBox), bbs ≠ [] → ∃ u, unionBBox bbs = some u := by
  intro bbs
  induction bbs with
  | nil => intro h; exact absurd rfl h
  | cons b rest ih =>
    intro _
    cases rest with
    | nil => exact ⟨b, rfl⟩
    | cons b' rest' =>
      obtain ⟨u', hu'⟩ := ih (by simp)
      exact ⟨⟨min b.minX u'.minX, min b.minY u'.minY, max b.maxX u'.maxX, max b.maxY u'.maxY⟩,
        by simp [unionBBox, hu']⟩

/-- When the snapshot entries carry exactly the boxes of a list, the
componentwise Math.min and Math.max folds of moveDelegate compute the
fields of the union box. -/
theorem unionBBox_fields :
    ∀ (bbs : List BBox) (ps : List Pos),
      ps.map (fun p => (p.minX, p.minY, p.maxX, p.maxY)) =
        bbs.map (fun b => (some b.minX, some b.minY, some b.maxX, some b.maxY)) →
      optMinList (ps.map Pos.minX) = (unionBBox bbs).map BBox.minX ∧
      optMinList (ps.map Pos.minY) = (unionBBox bbs).map BBox.minY ∧
      optMaxList (ps.map Pos.maxX) = (unionBBox bbs).map BBox.maxX ∧
      optMaxList (ps.map Pos.maxY) = (unionBBox bbs).map BBox.maxY := by
  intro bbs
  induction bbs with
  | nil =>
    intro ps h
    have hps : ps = [] := by simpa using h
    subst hps
    simp [optMinList, optMaxList, unionBBox]
  | cons b bbs' ih =>
    intro ps h
    cases ps with
    | nil => simp at h
    | cons p ps' =>
      simp only [List.map_cons, List.cons.injEq, Prod.mk.injEq] at h
      obtain ⟨⟨h1, h2, h3, h4⟩, htail⟩ := h
      cases bbs' with
      | nil =>
        have hps' : ps' = [] := by simpa using htail
        subst hps'
        simp [optMinList, optMaxList, unionBBox, h1, h2, h3, h4]
      | cons b' bbs'' =>
        obtain ⟨u', hu'⟩ := unionBBox_ne_nil (b' :: bbs'') (by simp)
        have IH := ih ps' (by simpa using htail)
        cases ps' with
        | nil => simp at htail
        | cons q qs =>
          rw [hu'] at IH
          obtain ⟨i1, i2, i3, i4⟩ := IH
          simp only [List.map_cons] at i1 i2 i3 i4 ⊢
          constructor
          · simp [optMinList, optMin2, unionBBox, hu', h1, i1]
          constructor
          · simp [optMinList, optMin2, unionBBox, hu', h2, i2]
          constructor
          · simp [optMaxList, optMax2, unionBBox, hu', h3, i3]
          · simp [optMaxList, optMax2, unionBBox, hu', h4, i4]

/-- With transient rendering and edge hiding both off (as the constructor
guarantees in delegate mode), the drag-start initialization neither touches
the graph nor draws any transient primitive: it only snapshots, fronts the
selection and installs the fresh throttle wrapper. -/
theorem dragStartInit_no_hide (s : DragState) (g : Graph) (ev : MoveEvent)
    (hT : s.opts.enableTransient = false)
    (hH : s.opts.hideRelatedEdges = false) :
    ∃ s1 eff1, dragStartInit s g ev = Except.ok (s1, g, eff1, freshThrottle) ∧
      s1.opts = s.opts ∧ s1.dragging = true ∧ eff1.transients = [] := by
  simp only [dragStartInit, hT, hH, Bool.false_and, Bool.and_false, Bool.false_eq_true,
    if_false, bind, Except.bind, pure, Except.pure, Effects.append, emptyEffects]
  exact ⟨_, _, rfl, rfl, rfl, rfl⟩

/-- Claim C9: while delegate mode is active (options resolved by the
constructor), every pointermove frame of a drag leaves every real node
position unchanged and the only transient primitives it draws are updates
of the synthetic delegate rectangle; and the delegate rectangle drawn by
moveDelegate (with the default style, when every snapshot entry carries a
bounding box) is exactly the union of the snapshotted boxes offset by the
cumulative delta. -/
theorem c9_delegate_frame_effect :
    (∀ (po : PartialOptions) (s : DragState) (ts : ThrottleState) (g : Graph) (ev : MoveEvent),
      s.opts = finalOptions po →
      s.opts.enableDelegate = true →
      ∃ s' ts' g' eff, onPointerMove s ts g ev = Except.ok (s', ts', g', eff) ∧
        (∀ i, posOf g' i = posOf g i) ∧
        (∀ c ∈ eff.transients, ∃ x y w h, c = TCmd.upsertRect DELEGATE_SHAPE_ID x y w h)) ∧
    (∀ (s : DragState) (dx dy : ℚ) (bbs : List BBox) (u : BBox),
      s.opts.delegateStyle = ⟨none, none, none, none⟩ →
      s.originPositions.map (fun p => (p.minX, p.minY, p.maxX, p.maxY)) =
        bbs.map (fun b => (some b.minX, some b.minY, some b.maxX, some b.maxY)) →
      unionBBox bbs = some u →
      (moveDelegate s dx dy).transients =
        [TCmd.upsertRect DELEGATE_SHAPE_ID (some (u.minX + dx)) (some (u.minY + dy))
          (some (u.maxX - u.minX)) (some (u.maxY - u.minY))]) := by
  constructor
  · intro po s ts g ev hopts hD
    have hT : s.opts.enableTransient = false := by
      rw [hopts] at hD ⊢
      exact applyFixups_delegate_transient _ hD
    have hH : s.opts.hideRelatedEdges = false := by
      rw [hopts] at hD ⊢
      exact applyFixups_hideRelatedEdges _ (Or.inl hD)
    cases hpd : s.pointerDown with
    | none =>
      refine ⟨s, ts, g, emptyEffects, ?_, fun i => rfl, ?_⟩
      · simp [onPointerMove, hpd]
      · simp [emptyEffects]
    | some pd =>
      by_cases hth : |pd.1 - ev.x| < 1 ∧ |pd.2 - ev.y| < 1
      · refine ⟨s, ts, g, emptyEffects, ?_, fun i => rfl, ?_⟩
        · simp [onPointerMove, hpd, hth]
        · simp [emptyEffects]
      · by_cases hdr : s.dragging
        · -- already dragging: no initialization happens
          by_cases hor : s.originPositions.isEmpty
          · refine ⟨s, ts, g, Effects.append emptyEffects emptyEffects, ?_, fun i => rfl, ?_⟩
            · simp only [onPointerMove, hpd, hth, if_false, hT, Bool.false_and, hdr,
                Bool.and_false, Bool.false_eq_true, bind, Except.bind, pure, Except.pure,
                if_true, hor, Bool.true_or]
            · simp [Effects.append, emptyEffects]
          · refine ⟨s, ts, g,
              Effects.append (Effects.append emptyEffects emptyEffects)
                (moveDelegate s (ev.x - s.originX) (ev.y - s.originY)), ?_, fun i => rfl, ?_⟩
            · simp only [onPointerMove, hpd, hth, if_false, hT, Bool.false_and, hdr,
                Bool.and_false, Bool.false_eq_true, bind, Except.bind, pure, Except.pure,
                if_true, hor, Bool.false_or, Bool.not_true, hD, Bool.or_self]
            · intro c hc
              simp only [Effects.append, emptyEffects, moveDelegate, List.append_nil,
                List.nil_append, List.mem_append, List.mem_singleton, List.not_mem_nil,
                false_or, or_false] at hc
              exact ⟨_, _, _, _, hc⟩
        · -- first qualifying move: the initialization runs
          obtain ⟨s1, eff1, hinit, hopts1, hdr1, heff1⟩ := dragStartInit_no_hide s g ev hT hH
          by_cases hor : s1.originPositions.isEmpty
          · refine ⟨s1, freshThrottle, g, Effects.append eff1 emptyEffects, ?_,
              fun i => rfl, ?_⟩
            · simp only [onPointerMove, hpd, hth, if_false, hT, Bool.false_and, hdr,
                Bool.and_false, Bool.false_eq_true, bind, Except.bind, pure, Except.pure,
                if_true, hinit, hor, Bool.true_or]
            · simp [Effects.append, emptyEffects, heff1]
          · refine ⟨s1, freshThrottle, g,
              Effects.append (Effects.append eff1 emptyEffects)
                (moveDelegate s1 (ev.x - s1.originX) (ev.y - s1.originY)), ?_,
              fun i => rfl, ?_⟩
            · simp only [onPointerMove, hpd, hth, if_false, hT, Bool.false_and, hdr,
                Bool.and_false, Bool.false_eq_true, bind, Except.bind, pure, Except.pure,
                if_true, hinit, hor, Bool.false_or, Bool.not_true, hdr1, hopts1, hD,
                Bool.or_self]
            · intro c hc
              simp only [Effects.append, emptyEffects, moveDelegate, heff1,
                List.append_nil, List.nil_append, List.mem_append, List.mem_singleton,
                List.not_mem_nil, false_or, or_false] at hc
              exact ⟨_, _, _, _, hc⟩
  · intro s dx dy bbs u hstyle hmap hu
    obtain ⟨m1, m2, m3, m4⟩ := unionBBox_fields bbs s.originPositions hmap
    rw [hu] at m1 m2 m3 m4
    simp only [moveDelegate, m1, m2, m3, m4, Option.map_some', hstyle, styleOv,
      Option.map_some']

/-- Witness for C9: a pointermove in delegate mode on the concrete graph,
and the delegate rectangle of a snapshot with one bounding box. -/
theorem c9_delegate_frame_effect_witness :
    (∃ s' ts' g' eff,
      onPointerMove (initState (finalOptions { enableDelegate := some true })) freshThrottle
        gA ⟨0, 0, none, 0⟩ = Except.ok (s', ts', g', eff) ∧
      (∀ i, posOf g' i = posOf gA i) ∧
      (∀ c ∈ eff.transients, ∃ x y w h, c = TCmd.upsertRect DELEGATE_SHAPE_ID x y w h)) ∧
    (moveDelegate
        { initState (finalOptions { enableDelegate := some true }) with
            originPositions := [⟨"a", 0, 0, some 1, some 2, some 11, some 22⟩] } 3 4).transients =
      [TCmd.upsertRect DELEGATE_SHAPE_ID (some (1 + 3)) (some (2 + 4))
        (some (11 - 1)) (some (22 - 2))] :=
  ⟨c9_delegate_frame_effect.1 { enableDelegate := some true }
      (initState (finalOptions { enableDelegate := some true })) freshThrottle gA
      ⟨0, 0, none, 0⟩ rfl rfl,
   c9_delegate_frame_effect.2
      { initState (finalOptions { enableDelegate := some true }) with
          originPositions := [⟨"a", 0, 0, some 1, some 2, some 11, some 22⟩] }
      3 4 [⟨1, 2, 11, 22⟩] ⟨1, 2, 11, 22⟩ rfl (by simp) rfl⟩

/-- Claim C8: with updateComboStructure on, dropping the dragged node a
(whose parent differs from the target) onto combo c1 updates a's parentId
to c1 through a structural data update performed after the pointer-up
commit; with updateComboStructure off, no drop handler is registered at
all, and the pointer-up path itself never changes any node's parent. -/
theorem c8_drop_combo_reparent :
    runC8parentA = some (some (some "c1")) ∧
    (∀ opts : Options, opts.updateComboStructure = false →
      "node:drop" ∉ (getEvents opts).map Prod.fst ∧
      "combo:drop" ∉ (getEvents opts).map Prod.fst ∧
      "canvas:drop" ∉ (getEvents opts).map Prod.fst) ∧
    (∀ (s : DragState) (ts : ThrottleState) (g : Graph) (ev : UpEvent) (i : ID),
      ∃ s' g' eff, onPointerUp s ts g ev = Except.ok (s', ts, g', eff) ∧
        parentOf g' i = parentOf g i) := by
  refine ⟨?_, ?_, ?_⟩
  · simp [runC8parentA, runC8, onDropCombo, sC8, gC8, gEmpty, initState, optsC8,
      finalOptions, applyFixups, DEFAULT_OPTIONS, onPointerUpPhase1, moveNodes,
      updateNodePosition, updateDataParent, settleWrap, runSettle, restoreHiddenItems, restoreGroup,
      restoreDefaultGroup, showCachedOne, showDefaultOne, clearTransientItems,
      clearDelegate, parentOf, freshThrottle, emptyEffects, Effects.append, Option.getD,
      lookupPC]
  · intro opts h
    refine ⟨?_, ?_, ?_⟩ <;> simp [getEvents, h]
  · intro s ts g ev i
    obtain ⟨s', g', eff, hsettle, hn, hw, hevs, ho⟩ :=
      runSettle_ok { s with pointerDown := none, dragging := false, selectedNodeIds := [] }
        (updateNodePosition g (s.originPositions.map
          (fun q => (q.id, q.x + (ev.x - s.originX + 1/100), q.y + (ev.y - s.originY + 1/100)))))
        s.originPositions
    refine ⟨s', g', Effects.append emptyEffects eff, ?_, ?_⟩
    · simp only [onPointerUp, onPointerUpPhase1, moveNodes, Bool.false_eq_true, if_false,
        Option.getD_some, hsettle, settleWrap]
    · have hpar := updateNodePosition_parentOf g (s.originPositions.map
        (fun q => (q.id, q.x + (ev.x - s.originX + 1/100), q.y + (ev.y - s.originY + 1/100)))) i
      unfold parentOf at hpar ⊢
      rw [hn]
      exact hpar

/-- Witness for C8: no combo:drop handler with restructuring off, and a
concrete pointer-up that leaves node a's parent untouched. -/
theorem c8_drop_combo_reparent_witness :
    ("combo:drop" ∉
      (getEvents (finalOptions { updateComboStructure := some false })).map Prod.fst) ∧
    (∃ s' g' eff, onPointerUp sC8 freshThrottle gC8 ⟨230, 110, 1⟩ =
        Except.ok (s', freshThrottle, g', eff) ∧ parentOf g' "a" = parentOf gC8 "a") :=
  ⟨(c8_drop_combo_reparent.2.1 (finalOptions { updateComboStructure := some false })
      rfl).2.1,
   c8_drop_combo_reparent.2.2 sC8 freshThrottle gC8 ⟨230, 110, 1⟩ "a"⟩

/-- The four-group restore chain of restoreHiddenItems: related edges and
related nodes and combo items get their cached sub-shape sets back exactly
once; near edges get a default full restore; everything else is
untouched. -/
theorem restoreChain_visible (full : ID → List String) (E R N C : List ID)
    (st0 : RestorePass) (hnd : (E ++ R ++ N ++ C).Nodup) :
    (∀ i ∈ E,
      (restoreGroup full C (restoreDefaultGroup full N (restoreGroup full R
        (restoreGroup full E st0)))).visible i = (st0.cache i).getD (full i)) ∧
    (∀ i ∈ R,
      (restoreGroup full C (restoreDefaultGroup full N (restoreGroup full R
        (restoreGroup full E st0)))).visible i = (st0.cache i).getD (full i)) ∧
    (∀ i ∈ C,
      (restoreGroup full C (restoreDefaultGroup full N (restoreGroup full R
        (restoreGroup full E st0)))).visible i = (st0.cache i).getD (full i)) ∧
    (∀ i ∈ N,
      (restoreGroup full C (restoreDefaultGroup full N (restoreGroup full R
        (restoreGroup full E st0)))).visible i = full i) ∧
    (∀ i, i ∉ E → i ∉ R → i ∉ N → i ∉ C →
      (restoreGroup full C (restoreDefaultGroup full N (restoreGroup full R
        (restoreGroup full E st0)))).visible i = st0.visible i) := by
  obtain ⟨h12, hC, hdC⟩ := List.nodup_append.mp hnd
  obtain ⟨h1, hN, hdN⟩ := List.nodup_append.mp h12
  obtain ⟨hE, hR, hdR⟩ := List.nodup_append.mp h1
  refine ⟨?_, ?_, ?_, ?_, ?_⟩
  · intro i hiE
    have hiR : i ∉ R := fun h => hdR hiE h
    have hiN : i ∉ N := fun h => hdN (List.mem_append_left R hiE) h
    have hiC : i ∉ C := fun h => hdC (List.mem_append_left N (List.mem_append_left R hiE)) h
    have a1 := restoreGroup_mem full E st0 i hE hiE
    have a2 := restoreGroup_not_mem full R (restoreGroup full E st0) i hiR
    have a3 := restoreDefaultGroup_not_mem full N
      (restoreGroup full R (restoreGroup full E st0)) i hiN
    have a4 := restoreGroup_not_mem full C
      (restoreDefaultGroup full N (restoreGroup full R (restoreGroup full E st0))) i hiC
    rw [a4.1, a3.1, a2.1, a1.1]
  · intro i hiR
    have hiE : i ∉ E := fun h => hdR h hiR
    have hiN : i ∉ N := fun h => hdN (List.mem_append_right E hiR) h
    have hiC : i ∉ C := fun h => hdC (List.mem_append_left N (List.mem_append_right E hiR)) h
    have a1 := restoreGroup_not_mem full E st0 i hiE
    have a2 := restoreGroup_mem full R (restoreGroup full E st0) i hR hiR
    have a3 := restoreDefaultGroup_not_mem full N
      (restoreGroup full R (restoreGroup full E st0)) i hiN
    have a4 := restoreGroup_not_mem full C
      (restoreDefaultGroup full N (restoreGroup full R (restoreGroup full E st0))) i hiC
    rw [a4.1, a3.1, a2.1, a1.2]
  · intro i hiC
    have hiERN : i ∉ E ++ R ++ N := fun h => hdC h hiC
    have hiE : i ∉ E := fun h => hiERN (List.mem_append_left N (List.mem_append_left R h))
    have hiR : i ∉ R := fun h => hiERN (List.mem_append_left N (List.mem_append_right E h))
    have hiN : i ∉ N := fun h => hiERN (List.mem_append_right (E ++ R) h)
    have a1 := restoreGroup_not_mem full E st0 i hiE
    have a2 := restoreGroup_not_mem full R (restoreGroup full E st0) i hiR
    have a3 := restoreDefaultGroup_not_mem full N
      (restoreGroup full R (restoreGroup full E st0)) i hiN
    have a4 := restoreGroup_mem full C
      (restoreDefaultGroup full N (restoreGroup full R (restoreGroup full E st0))) i hC hiC
    rw [a4.1, a3.2, a2.2, a1.2]
  · intro i hiN
    have hiE : i ∉ E := fun h => hdN (List.mem_append_left R h) hiN
    have hiR : i ∉ R := fun h => hdN (List.mem_append_right E h) hiN
    have hiC : i ∉ C := fun h => hdC (List.mem_append_right (E ++ R) hiN) h
    have a3 := restoreDefaultGroup_mem full N
      (restoreGroup full R (restoreGroup full E st0)) i hN hiN
    have a4 := restoreGroup_not_mem full C
      (restoreDefaultGroup full N (restoreGroup full R (restoreGroup full E st0))) i hiC
    rw [a4.1, a3.1]
  · intro i hiE hiR hiN hiC
    have a1 := restoreGroup_not_mem full E st0 i hiE
    have a2 := restoreGroup_not_mem full R (restoreGroup full E st0) i hiR
    have a3 := restoreDefaultGroup_not_mem full N
      (restoreGroup full R (restoreGroup full E st0)) i hiN
    have a4 := restoreGroup_not_mem full C
      (restoreDefaultGroup full N (restoreGroup full R (restoreGroup full E st0))) i hiC
    rw [a4.1, a3.1, a2.1, a1.1]

/-- Claim C2, amended: when transient mode is off and the hidden groups are
pairwise duplicate-free, the pointer-up restore shows every hidden related
edge, related node and combo-ancestor item exactly once with the sub-shape
set cached for it at hide time (falling back to the full set only when no
cache entry exists), leaves every other item's visible set untouched, and
drains the hidden-item ledger; near edges, however, are restored with a
default show-everything restore, not with their cached set — and in
transient mode the dragged nodes are shown twice, the second time with a
default restore (the counterexample). -/
theorem c2_amended_restore_cached (s : DragState) (g : Graph) (ps : Option (List Pos))
    (hT : s.opts.enableTransient = false)
    (hnd : ((s.hiddenEdges.map EdgeM.id) ++ s.hiddenRelatedNodes ++
            (s.hiddenNearEdges.map EdgeM.id) ++
            (s.hiddenComboTreeItems.map ComboItem.id)).Nodup) :
    ∃ s' g', restoreHiddenItems s g ps = Except.ok (s', g') ∧
      (∀ i ∈ s.hiddenEdges.map EdgeM.id,
        g'.visible i = (s.hiddenShapeCache i).getD (g.fullShapes i)) ∧
      (∀ i ∈ s.hiddenRelatedNodes,
        g'.visible i = (s.hiddenShapeCache i).getD (g.fullShapes i)) ∧
      (∀ i ∈ s.hiddenComboTreeItems.map ComboItem.id,
        g'.visible i = (s.hiddenShapeCache i).getD (g.fullShapes i)) ∧
      (∀ i ∈ s.hiddenNearEdges.map EdgeM.id, g'.visible i = g.fullShapes i) ∧
      (∀ i, i ∉ s.hiddenEdges.map EdgeM.id → i ∉ s.hiddenRelatedNodes →
        i ∉ s.hiddenNearEdges.map EdgeM.id → i ∉ s.hiddenComboTreeItems.map ComboItem.id →
        g'.visible i = g.visible i) ∧
      s'.hiddenEdges = [] ∧ s'.hiddenRelatedNodes = [] ∧ s'.hiddenNearEdges = [] ∧
      s'.hiddenComboTreeItems = [] := by
  obtain ⟨hvE, hvR, hvC, hvN, hout⟩ :=
    restoreChain_visible g.fullShapes (s.hiddenEdges.map EdgeM.id) s.hiddenRelatedNodes
      (s.hiddenNearEdges.map EdgeM.id) (s.hiddenComboTreeItems.map ComboItem.id)
      ⟨g.visible, s.hiddenShapeCache⟩ hnd
  simp only [restoreHiddenItems, hT, Bool.false_and, Bool.false_eq_true, if_false]
  exact ⟨_, _, rfl, hvE, hvR, hvC, hvN, hout, rfl, rfl, rfl, rfl⟩

/-- Witness for C2, amended: the restore pass on the concrete mid-gesture
state holding one hidden item of each kind. -/
theorem c2_amended_restore_cached_witness :
    ∃ s' g', restoreHiddenItems sRestore gA none = Except.ok (s', g') ∧
      (∀ i ∈ sRestore.hiddenEdges.map EdgeM.id,
        g'.visible i = (sRestore.hiddenShapeCache i).getD (gA.fullShapes i)) ∧
      (∀ i ∈ sRestore.hiddenRelatedNodes,
        g'.visible i = (sRestore.hiddenShapeCache i).getD (gA.fullShapes i)) ∧
      (∀ i ∈ sRestore.hiddenComboTreeItems.map ComboItem.id,
        g'.visible i = (sRestore.hiddenShapeCache i).getD (gA.fullShapes i)) ∧
      (∀ i ∈ sRestore.hiddenNearEdges.map EdgeM.id, g'.visible i = gA.fullShapes i) ∧
      (∀ i, i ∉ sRestore.hiddenEdges.map EdgeM.id → i ∉ sRestore.hiddenRelatedNodes →
        i ∉ sRestore.hiddenNearEdges.map EdgeM.id →
        i ∉ sRestore.hiddenComboTreeItems.map ComboItem.id →
        g'.visible i = gA.visible i) ∧
      s'.hiddenEdges = [] ∧ s'.hiddenRelatedNodes = [] ∧ s'.hiddenNearEdges = [] ∧
      s'.hiddenComboTreeItems = [] :=
  c2_amended_restore_cached sRestore gA none rfl
    (by simp [sRestore, initState])

/-- A snapshot entry is produced exactly for existing nodes and carries the
queried id. -/
theorem snapshotOne_id (opts : Options) (g : Graph) (id : ID) (p : Pos)
    (h : snapshotOne opts g id = some p) : (g.nodes id).isSome ∧ p.id = id := by
  cases hn : g.nodes id with
  | none => simp [snapshotOne, hn] at h
  | some r =>
    simp only [snapshotOne, hn] at h
    refine ⟨by simp [hn], ?_⟩
    by_cases hd : opts.enableDelegate = true
    · rw [if_pos hd] at h
      cases hb : g.renderBBox id <;> rw [hb] at h <;>
        simp only [Option.some.injEq] at h <;> rw [← h]
    · rw [if_neg hd] at h
      simp only [Option.some.injEq] at h
      rw [← h]

/-- Every existing node gets a snapshot entry. -/
theorem snapshotOne_isSome (opts : Options) (g : Graph) (id : ID)
    (h : (g.nodes id).isSome) : ∃ p, snapshotOne opts g id = some p ∧ p.id = id := by
  obtain ⟨r, hr⟩ := Option.isSome_iff_exists.mp h
  simp only [snapshotOne, hr]
  by_cases hd : opts.enableDelegate = true
  · rw [if_pos hd]
    cases hb : g.renderBBox id
    · exact ⟨_, rfl, rfl⟩
    · exact ⟨_, rfl, rfl⟩
  · rw [if_neg hd]
    exact ⟨_, rfl, rfl⟩

/-- The settle callback always succeeds and warns about nothing. -/
theorem run_settle_exists (s : DragState) (g : Graph) (ps : List Pos) :
    ∃ s' g' eff, runSettle s g ps = Except.ok (s', g', eff) ∧ eff.warnings = [] := by
  obtain ⟨s', g', eff, hok, _, hw, _, _⟩ := runSettle_ok s g ps
  exact ⟨s', g', eff, hok, hw⟩

/-- Wrapping a successful settle never fails and accumulates no warning
beyond those of the commit effects. -/
theorem settleWrap_ok_of (ts : ThrottleState) (effMove : Effects)
    (r : Except String (DragState × Graph × Effects))
    (hr : ∃ s2 g2 eff2, r = Except.ok (s2, g2, eff2) ∧ eff2.warnings = [])
    (hw : effMove.warnings = []) :
    ∃ s' ts' g' eff, settleWrap ts effMove r = Except.ok (s', ts', g', eff) ∧
      eff.warnings = [] := by
  obtain ⟨s2, g2, eff2, hok, hw2⟩ := hr
  rw [hok]
  exact ⟨s2, ts, g2, _, rfl, by simp [Effects.append, hw, hw2]⟩

/-- A missing node stays missing across a batch position update. -/
theorem updateNodePosition_none (g : Graph) (ch : List (ID × ℚ × ℚ)) (i : ID)
    (h : g.nodes i = none) : (updateNodePosition g ch).nodes i = none := by
  unfold updateNodePosition
  cases hc : lookupPC ch i <;> simp [hc, h]

/-- The forEach of onDropCanvas throws as soon as any dragged id is missing
from the graph. -/
theorem foldlM_dropCanvasStep_err (g1 : Graph) (pid : Option ID) :
    ∀ (l : List Pos) (acc : List (ID × Option ID)),
      (∃ p ∈ l, g1.nodes p.id = none) →
      List.foldlM (dropCanvasStep g1 pid) acc l =
        Except.error "TypeError: cannot read data of undefined" := by
  intro l
  induction l with
  | nil =>
    intro acc h
    obtain ⟨p, hp, _⟩ := h
    exact absurd hp (List.not_mem_nil p)
  | cons q l ih =>
    intro acc h
    cases hq : g1.nodes q.id with
    | none =>
      simp [List.foldlM_cons, dropCanvasStep, hq, bind, Except.bind]
    | some m =>
      obtain ⟨p, hp, hnone⟩ := h
      have hpl : p ∈ l := by
        rcases List.mem_cons.mp hp with h1 | h1
        · subst h1
          rw [hq] at hnone
          cases hnone
        · exact h1
      have hstep : ∃ acc', dropCanvasStep g1 pid acc q = Except.ok acc' := by
        simp only [dropCanvasStep, hq]
        split
        · exact ⟨_, rfl⟩
        · split
          · exact ⟨_, rfl⟩
          · exact ⟨_, rfl⟩
      obtain ⟨acc', hacc⟩ := hstep
      rw [List.foldlM_cons, hacc]
      simpa using ih acc' ⟨p, hpl, hnone⟩

/-- A thrown forEach aborts the whole onDropCanvas tail. -/
theorem dropFinish_of_missing (ts : ThrottleState) (effMove : Effects) (ps : List Pos)
    (s1 : DragState) (g1 : Graph) (pid : Option ID) (l : List Pos)
    (acc : List (ID × Option ID)) (h : ∃ p ∈ l, g1.nodes p.id = none) :
    dropFinish ts effMove ps s1 g1 (List.foldlM (dropCanvasStep g1 pid) acc l) =
      Except.error "TypeError: cannot read data of undefined" := by
  rw [foldlM_dropCanvasStep_err g1 pid l acc h]
  rfl

/-- Claim C7, amended: when snapshotting origin positions, a node id no
longer present is logged as a warning and skipped while every existing id
is snapshotted, and the gesture continues; but in the drop handlers the
behavior differs from the claim: onDropCombo skips missing ids silently
(it completes without emitting any warning), and onDropCanvas has no guard
at all — a missing dragged id makes it throw, aborting the gesture. -/
theorem c7_amended_missing_id_handling :
    (∀ (opts : Options) (g : Graph) (ids : List ID) (i : ID),
      i ∈ ids → g.nodes i = none →
      (∀ p ∈ (snapshotPositions opts g ids).1, p.id ≠ i) ∧
      warnMissingNode ∈ (snapshotPositions opts g ids).2) ∧
    (∀ (opts : Options) (g : Graph) (ids : List ID) (i : ID),
      i ∈ ids → (g.nodes i).isSome →
      ∃ p ∈ (snapshotPositions opts g ids).1, p.id = i) ∧
    (∀ (s : DragState) (ts : ThrottleState) (g : Graph) (ev : DropEvent),
      ∃ s' ts' g' eff, onDropCombo s ts g ev = Except.ok (s', ts', g', eff) ∧
        eff.warnings = []) ∧
    (∀ (s : DragState) (ts : ThrottleState) (g : Graph) (hit : List (Option ID))
        (ev : DropEvent) (p : Pos),
      p ∈ s.originPositions → g.nodes p.id = none →
      onDropCanvas s ts g hit ev =
        Except.error "TypeError: cannot read data of undefined") := by
  refine ⟨?_, ?_, ?_, ?_⟩
  · intro opts g ids i hi hnone
    constructor
    · intro p hp hpi
      obtain ⟨j, hj, hfj⟩ := List.mem_filterMap.mp hp
      obtain ⟨hjs, hpj⟩ := snapshotOne_id opts g j p hfj
      rw [hpi] at hpj
      rw [hpj] at hnone
      rw [hnone] at hjs
      cases hjs
    · exact List.mem_map_of_mem _ (List.mem_filter.mpr ⟨hi, by simp [hnone]⟩)
  · intro opts g ids i hi hsome
    obtain ⟨p, hp, hpi⟩ := snapshotOne_isSome opts g i hsome
    exact ⟨p, List.mem_filterMap.mpr ⟨i, hi, hp⟩, hpi⟩
  · intro s ts g ev
    simp only [onDropCombo, onPointerUpPhase1, moveNodes, Bool.false_eq_true, if_false,
      Option.getD_some]
    exact settleWrap_ok_of _ _ _ (run_settle_exists _ _ _) rfl
  · intro s ts g hit ev p hp hnone
    simp only [onDropCanvas, onPointerUpPhase1, moveNodes, Bool.false_eq_true, if_false,
      Option.getD_some]
    exact dropFinish_of_missing _ _ _ _ _ _ _ _
      ⟨p, hp, updateNodePosition_none g _ p.id hnone⟩

/-- Witness for C7, amended: the ghost id is skipped and warned about in a
concrete snapshot, node a is snapshotted, a concrete combo drop completes
without warnings, and the concrete canvas drop with the ghost id throws. -/
theorem c7_amended_missing_id_handling_witness :
    ((∀ p ∈ (snapshotPositions optsC1 gA ["a", "ghost"]).1, p.id ≠ "ghost") ∧
      warnMissingNode ∈ (snapshotPositions optsC1 gA ["a", "ghost"]).2) ∧
    (∃ p ∈ (snapshotPositions optsC1 gA ["a", "ghost"]).1, p.id = "a") ∧
    (∃ s' ts' g' eff, onDropCombo sC8 freshThrottle gC8 ⟨230, 110, 1, some "c1"⟩ =
        Except.ok (s', ts', g', eff) ∧ eff.warnings = []) ∧
    (onDropCanvas sGhost freshThrottle gEmpty [] ⟨0, 0, 0, none⟩ =
      Except.error "TypeError: cannot read data of undefined") :=
  ⟨c7_amended_missing_id_handling.1 optsC1 gA ["a", "ghost"] "ghost" (by simp) rfl,
   c7_amended_missing_id_handling.2.1 optsC1 gA ["a", "ghost"] "a" (by simp) (by simp [gA]),
   c7_amended_missing_id_handling.2.2.1 sC8 freshThrottle gC8 ⟨230, 110, 1, some "c1"⟩,
   c7_amended_missing_id_handling.2.2.2 sGhost freshThrottle gEmpty [] ⟨0, 0, 0, none⟩
     ⟨"ghost", 0, 0, none, none, none, none⟩ (by simp [sGhost, initState]) rfl⟩
